import Mathlib

/-!
# Bus tracking demo (script.js): driver publisher and passenger subscriber

A shallow embedding of `src/script.js`.  The script defines two page controllers
that communicate only through `localStorage`:

* `setupDriverPage` (lines 13-106): `startSharing`, `stopSharing` and the two
  location callbacks, publishing under the fixed identifier 101;
* `setupPassengerPage` (lines 110-209): `handleSearch` and `updateBusLocation`,
  polling the entry of the searched identifier.

The script redeclares both controllers further down (lines 278-323) with their
inner bodies elided to `/* ... */`; the definitions embedded here are the
complete ones, together with the constants of lines 255-276.

Platform objects are modelled by their observable contract:

* `localStorage` is a map from string keys to stored strings;
* a stored string is represented by what `JSON.parse` makes of it
  (`Stored.json v`: JSON text denoting `v`; `Stored.text s`: a string that is
  not JSON text, on which `JSON.parse` throws);
* finite numbers are represented by their rational value, with the signed
  zero and the non-finite values kept apart;
* timers and location watches are sets of active handles;
* the map library (Leaflet) is a sink that records the last position and view
  given to it, and that throws `Invalid LatLng object` when a coordinate given
  to it converts to NaN.
-/

namespace BusTracker

/-! ## JavaScript values -/

/-- A JavaScript number: a finite value (`fin 0` is `+0`), negative zero, the
two infinities, or NaN. -/
inductive JSNum where
  | fin (q : ℚ)
  | negZero
  | posInf
  | negInf
  | nan

/-- The predicate `Number.isFinite`. -/
def JSNum.isFinite : JSNum → Bool
  | .fin _ => true
  | .negZero => true
  | _ => false

/-- The predicate `Number.isNaN`. -/
def JSNum.isNaN : JSNum → Bool
  | .nan => true
  | _ => false

/-- Whether the number is one of the two infinities. -/
def JSNum.isInfinite : JSNum → Bool
  | .posInf => true
  | .negInf => true
  | _ => false

/-- Truthiness of a number (`ToBoolean`): `+0`, `-0` and NaN are falsy. -/
def JSNum.truthy : JSNum → Bool
  | .fin q => decide (q ≠ 0)
  | .negZero => false
  | .posInf => true
  | .negInf => true
  | .nan => false

/-- Strict equality `===` on numbers: NaN equals nothing, `-0 === +0`. -/
def JSNum.strictEq : JSNum → JSNum → Bool
  | .fin a, .fin b => decide (a = b)
  | .fin a, .negZero => decide (a = 0)
  | .negZero, .fin b => decide (b = 0)
  | .negZero, .negZero => true
  | .posInf, .posInf => true
  | .negInf, .negInf => true
  | _, _ => false

/-- A JavaScript value of the kinds `JSON.parse` can return, plus `undefined`
(the result of reading a property that is not there).  An object is the list
of its own properties, each name occurring once. -/
inductive JSVal where
  | undefined
  | null
  | bool (b : Bool)
  | num (n : JSNum)
  | str (s : String)
  | arr (items : List JSVal)
  | obj (fields : List (String × JSVal))

/-- Truthiness (`ToBoolean`): `undefined`, `null`, `false`, `0`, `-0`, NaN and
the empty string are falsy; every object and array is truthy. -/
def JSVal.truthy : JSVal → Bool
  | .undefined => false
  | .null => false
  | .bool b => b
  | .num n => n.truthy
  | .str s => decide (s ≠ "")
  | .arr _ => true
  | .obj _ => true

/-- Property read `v.name` for the names `lat` and `lng`.  An object yields its
own field or `undefined`; primitives and arrays have no such property.  On
`null` and `undefined` the read would throw, but every read in the script is
guarded by a truthiness test on `v`, so the value returned here is never used. -/
def JSVal.get (v : JSVal) (name : String) : JSVal :=
  match v with
  | .obj fields => (fields.lookup name).getD .undefined
  | _ => .undefined

/-! ## The shared store (`localStorage`) -/

/-- A string held in `localStorage`, represented by what `JSON.parse` makes of
it: JSON text denoting the value `v`, or a string that is not JSON text. -/
inductive Stored where
  | json (v : JSVal)
  | text (s : String)

/-- The store: `localStorage` as a map from keys to stored strings. -/
abbrev Store := String → Option Stored

/-- The empty store. -/
def Store.empty : Store := fun _ => none

/-- The call `localStorage.getItem(key)`; `none` is JavaScript `null`. -/
def Store.getItem (st : Store) (key : String) : Option Stored := st key

/-- The call `localStorage.setItem(key, value)`: overwrites unconditionally. -/
def Store.setItem (st : Store) (key : String) (value : Stored) : Store :=
  fun k => if k = key then some value else st k

/-- The call `localStorage.removeItem(key)`. -/
def Store.removeItem (st : Store) (key : String) : Store :=
  fun k => if k = key then none else st k

/-- The test `localStorage.getItem(key) === s` against a string literal that is
not JSON text (such as `on`). -/
def Stored.isText (v : Option Stored) (s : String) : Bool :=
  match v with
  | some (.text t) => decide (t = s)
  | _ => false

/-- The number as `JSON.stringify` serialises it and `JSON.parse` reads it
back: non-finite numbers become `null`, negative zero is written as `0`, and a
finite number is written with digits that read back as the same number. -/
def jsonNumber : JSNum → JSVal
  | .fin q => .num (.fin q)
  | .negZero => .num (.fin 0)
  | .posInf => .null
  | .negInf => .null
  | .nan => .null

/-- The string `JSON.stringify({ lat: latitude, lng: longitude })`. -/
def stringifyLocation (latitude longitude : JSNum) : Stored :=
  .json (.obj [("lat", jsonNumber latitude), ("lng", jsonNumber longitude)])

/-- The call `JSON.parse(item)` on the result of `getItem`: `null` is coerced to
the text `null` and parses to `null`; a string that is not JSON text throws
(`none`). -/
def jsonParse : Option Stored → Option JSVal
  | none => some .null
  | some (.json v) => some v
  | some (.text _) => none

/-! ## Constants (lines 255-276) -/

/-- The constant `BUS_LOCATION_PREFIX`. -/
def BUS_LOCATION_PREFIX : String := "bus_location_"

/-- The constant `SHARING_STATUS_KEY`. -/
def SHARING_STATUS_KEY : String := "sharing_status"

/-- The constant `BUS_NUMBER` of the driver page (line 21). -/
def BUS_NUMBER : String := "101"

/-- An entry of `MOCK_BUS_DATA`. -/
structure MockBus where
  lat : ℚ
  lng : ℚ
  nextStop : String
  seats : Nat

/-- The result of the property read `MOCK_BUS_DATA[key]`: one of the three own
entries, a member inherited from `Object.prototype` (truthy, with no `seats`
and no `nextStop`), or `undefined`. -/
inductive MockLookup where
  | entry (bus : MockBus)
  | inherited
  | missing

/-- The property names every plain object inherits from `Object.prototype`. -/
def objectPrototypeNames : List String :=
  ["constructor", "__defineGetter__", "__defineSetter__", "hasOwnProperty",
   "__lookupGetter__", "__lookupSetter__", "isPrototypeOf", "propertyIsEnumerable",
   "toString", "valueOf", "__proto__", "toLocaleString"]

/-- The table `MOCK_BUS_DATA`, read as `MOCK_BUS_DATA[key]`. -/
def MOCK_BUS_DATA (key : String) : MockLookup :=
  if key = "101" then
    .entry
      { lat := 28.9863, lng := 77.0195, nextStop := "Mordern velly ,kharar", seats := 25 }
  else if key = "102" then
    .entry
      { lat := 28.9800, lng := 77.0150, nextStop := " chandigarh University Gate", seats := 30 }
  else if key = "201" then
    .entry
      { lat := 28.9950, lng := 77.0300, nextStop := "Sector 22,chandigarh", seats := 15 }
  else if key ∈ objectPrototypeNames then .inherited
  else .missing

/-! ## Numbers the passenger page computes -/

/-- Rounding of a rational to the nearest integer, ties to the even one. -/
def roundHalfEven (y : ℚ) : ℤ :=
  let f := ⌊y⌋
  if y - f < 1 / 2 then f
  else if 1 / 2 < y - f then f + 1
  else if f % 2 = 0 then f else f + 1

/-- The binary64 number nearest to `x` (round to nearest, ties to even), with
53 significant bits above the subnormal range.  Overflow to an infinity is not
represented; the only argument in the script is `Math.random() * 10`. -/
def toDouble (x : ℚ) : ℚ :=
  if x = 0 then 0
  else
    let e := max (Int.log 2 |x|) (-1022)
    let ulp : ℚ := 2 ^ (e - 52)
    roundHalfEven (x / ulp) * ulp

/-- The value `Math.floor(Math.random() * 10) + 1`, where `r` is what
`Math.random()` returned.  The product is the rounded binary64 product; the
addition of 1 is exact at this magnitude. -/
def etaMinutes (r : ℚ) : ℤ := ⌊toDouble (r * 10)⌋ + 1

/-- The template string with the ETA in minutes (line 167). -/
def etaText (r : ℚ) : String := toString (etaMinutes r) ++ " mins"

/-! ## String trimming -/

/-- The characters `String.prototype.trim` removes: ECMAScript WhiteSpace and
LineTerminator code points. -/
def isJSWhiteSpace (c : Char) : Bool :=
  let n := c.toNat
  n = 0x09 || n = 0x0A || n = 0x0B || n = 0x0C || n = 0x0D || n = 0x20 || n = 0xA0
    || n = 0x1680 || (0x2000 ≤ n && n ≤ 0x200A) || n = 0x2028 || n = 0x2029
    || n = 0x202F || n = 0x205F || n = 0x3000 || n = 0xFEFF

/-- The method `String.prototype.trim`. -/
def jsTrim (s : String) : String :=
  String.mk ((s.toList.dropWhile isJSWhiteSpace).reverse.dropWhile isJSWhiteSpace).reverse

/-! ## Conversion to a number, as the map library checks it -/

/-- What `ToNumber` gives, as far as the map library tells results apart: NaN,
an infinity, or a finite number. -/
inductive NumberKind where
  | nan
  | infinite
  | finite
  deriving DecidableEq

/-- The kind of a number. -/
def JSNum.kind : JSNum → NumberKind
  | .fin _ => .finite
  | .negZero => .finite
  | .posInf => .infinite
  | .negInf => .infinite
  | .nan => .nan

/-- DecimalDigits: one or more decimal digits. -/
def isDecimalDigits (cs : List Char) : Bool :=
  !cs.isEmpty && cs.all Char.isDigit

/-- SignedInteger: decimal digits with an optional sign. -/
def isSignedInteger : List Char → Bool
  | '+' :: cs => isDecimalDigits cs
  | '-' :: cs => isDecimalDigits cs
  | cs => isDecimalDigits cs

/-- The mantissa of StrUnsignedDecimalLiteral: digits, digits with a fraction,
or a fraction alone. -/
def isMantissa (cs : List Char) : Bool :=
  match cs.span Char.isDigit with
  | (whole, []) => !whole.isEmpty
  | (whole, '.' :: fraction) =>
    fraction.all Char.isDigit && (!whole.isEmpty || !fraction.isEmpty)
  | _ => false

/-- StrUnsignedDecimalLiteral: `Infinity`, or a mantissa with an optional
exponent part. -/
def isUnsignedDecimalLiteral (cs : List Char) : Bool :=
  cs = "Infinity".toList ||
    match cs.span (fun c => c ≠ 'e' && c ≠ 'E') with
    | (mantissa, []) => isMantissa mantissa
    | (mantissa, _ :: exponent) => isMantissa mantissa && isSignedInteger exponent

/-- A literal without its sign. -/
def dropSign : List Char → List Char
  | '+' :: cs => cs
  | '-' :: cs => cs
  | cs => cs

/-- StrDecimalLiteral: an unsigned decimal literal with an optional sign. -/
def isDecimalLiteral (cs : List Char) : Bool := isUnsignedDecimalLiteral (dropSign cs)

/-- A hexadecimal digit. -/
def isHexDigit (c : Char) : Bool :=
  c.isDigit || ('a' ≤ c && c ≤ 'f') || ('A' ≤ c && c ≤ 'F')

/-- The value of a digit, hexadecimal digits included. -/
def digitValue (c : Char) : Nat :=
  if c.isDigit then c.toNat - 48
  else if 'a' ≤ c && c ≤ 'f' then c.toNat - 87
  else c.toNat - 55

/-- The radix the prefix of a NonDecimalIntegerLiteral announces. -/
def radixOf : List Char → Option Nat
  | '0' :: 'x' :: _ => some 16
  | '0' :: 'X' :: _ => some 16
  | '0' :: 'o' :: _ => some 8
  | '0' :: 'O' :: _ => some 8
  | '0' :: 'b' :: _ => some 2
  | '0' :: 'B' :: _ => some 2
  | _ => none

/-- NonDecimalIntegerLiteral: a hexadecimal, octal or binary literal, unsigned,
with at least one digit. -/
def isNonDecimalIntegerLiteral (cs : List Char) : Bool :=
  match radixOf cs with
  | some radix =>
    !(cs.drop 2).isEmpty && (cs.drop 2).all (fun c => isHexDigit c && digitValue c < radix)
  | none => false

/-- The value of a run of digits in a radix. -/
def digitsValue (radix : Nat) (cs : List Char) : Nat :=
  cs.foldl (fun acc c => acc * radix + digitValue c) 0

/-- The value of a SignedInteger. -/
def signedIntegerValue : List Char → ℤ
  | '-' :: cs => -(digitsValue 10 cs : ℤ)
  | cs => (digitsValue 10 (dropSign cs) : ℤ)

/-- The mathematical value of a StrUnsignedDecimalLiteral other than
`Infinity`. -/
def unsignedDecimalMagnitude (cs : List Char) : ℚ :=
  match cs.span (fun c => c ≠ 'e' && c ≠ 'E') with
  | (mantissa, rest) =>
    let whole := mantissa.takeWhile Char.isDigit
    let fraction := (mantissa.dropWhile Char.isDigit).drop 1
    let exponent : ℤ := signedIntegerValue (rest.drop 1)
    (digitsValue 10 (whole ++ fraction) : ℚ) * 10 ^ (exponent - fraction.length)

/-- The magnitude from which rounding to binary64 gives an infinity. -/
def overflowThreshold : ℚ := 2 ^ 1024 - 2 ^ 970

/-- The kind of `StringToNumber(s)`: the string, with white space stripped at
both ends, is empty (the number 0), a StrNumericLiteral (finite, or infinite
when it is `Infinity` or too large for binary64), or anything else (NaN). -/
def stringToNumberKind (s : String) : NumberKind :=
  let cs := (jsTrim s).toList
  if cs.isEmpty then .finite
  else if isNonDecimalIntegerLiteral cs then
    if overflowThreshold ≤ (digitsValue ((radixOf cs).getD 10) (cs.drop 2) : ℚ) then .infinite
    else .finite
  else if isDecimalLiteral cs then
    if dropSign cs = "Infinity".toList then .infinite
    else if overflowThreshold ≤ unsignedDecimalMagnitude (dropSign cs) then .infinite
    else .finite
  else .nan

mutual
/-- Whether converting the value to a primitive throws a TypeError: a parsed
object with an own property `toString` (never callable in a parsed value)
cannot be converted, and neither can an array with such an object among its
elements, which it joins. -/
def JSVal.toPrimitiveThrows : JSVal → Bool
  | .obj fields => (fields.lookup "toString").isSome
  | .arr items => anyToPrimitiveThrows items
  | _ => false
/-- Whether converting one of the elements to a primitive throws. -/
def anyToPrimitiveThrows : List JSVal → Bool
  | [] => false
  | x :: xs => x.toPrimitiveThrows || anyToPrimitiveThrows xs
end

/-- The kind of `ToNumber(v)`, or `none` when the conversion throws.
`undefined` is NaN; `null` and booleans are `0` and `1`; a string goes through
`StringToNumber`; a plain object is the text `[object Object]`, hence NaN; an
array is first joined with commas, so the empty array is `0`, an array of one
element converts as the text of that element, and longer arrays give NaN. -/
def JSVal.toNumberKind : JSVal → Option NumberKind
  | .undefined => some .nan
  | .null => some .finite
  | .bool _ => some .finite
  | .num n => some n.kind
  | .str s => some (stringToNumberKind s)
  | .obj fields => if (fields.lookup "toString").isSome then none else some .nan
  | .arr [] => some .finite
  | .arr [.undefined] => some .finite
  | .arr [.null] => some .finite
  | .arr [.bool _] => some .nan
  | .arr [.num n] => some n.kind
  | .arr [.str s] => some (stringToNumberKind s)
  | .arr [.obj fields] => if (fields.lookup "toString").isSome then none else some .nan
  | .arr [.arr items] => toNumberKind (.arr items)
  | .arr (x :: y :: rest) => if anyToPrimitiveThrows (x :: y :: rest) then none else some .nan

/-- The global `isNaN(v)`, counted as true also when the conversion throws. -/
def JSVal.notANumber (v : JSVal) : Bool :=
  v.toNumberKind = none || v.toNumberKind = some .nan

/-- Whether the map library rejects an object given to `setLatLng` or `panTo`
as a position.  For an object with `lat` and `lng` it builds
`new LatLng(a.lat, a.lng, a.alt)`, whose constructor throws
`Invalid LatLng object` when `isNaN(lat) || isNaN(lng)`, and then evaluates
`+alt` when `alt` is there. -/
def latLngRejected (storedLocation : JSVal) : Bool :=
  (storedLocation.get "lat").notANumber || (storedLocation.get "lng").notANumber
    || (storedLocation.get "alt").toNumberKind = none

/-- Whether `map.panTo` throws on a position the map library accepted: with an
infinite longitude the tile layer of the map, asked to follow the new view,
throws `Attempted to load an infinite number of tiles`.  An infinite latitude
is clamped by the projection.  Overflow inside the projection is not followed:
a finite longitude is taken to project to a finite point, as every longitude
of the geographic range does. -/
def panToRejected (storedLocation : JSVal) : Bool :=
  (storedLocation.get "lng").toNumberKind = some .infinite

/-! ## Outcomes -/

/-- The outcome of running a handler: it returned, or an exception escaped it.
Either way the state reached is kept, since effects before a throw persist. -/
inductive Outcome (σ : Type) where
  | returned (s : σ)
  | threw (s : σ)

/-- The state a handler leaves behind. -/
def Outcome.state {σ : Type} : Outcome σ → σ
  | .returned s => s
  | .threw s => s

/-- Whether the handler returned normally. -/
def Outcome.isReturned {σ : Type} : Outcome σ → Bool
  | .returned _ => true
  | .threw _ => false

/-! ## Interval timers -/

/-- The platform's interval timers: the handles of the active timers and the
handle the next `setInterval` will return. -/
structure Timers where
  active : List Nat
  next : Nat

/-- The call `setInterval(f, ms)`: returns a fresh handle and activates it. -/
def Timers.setInterval (t : Timers) : Nat × Timers :=
  (t.next, { active := t.next :: t.active, next := t.next + 1 })

/-- The call `clearInterval(h)`: deactivates `h`; no effect if it is not active. -/
def Timers.clearInterval (t : Timers) (h : Nat) : Timers :=
  { t with active := t.active.filter (fun a => a ≠ h) }

/-! ## Passenger page (lines 110-209) -/

/-- The state of the passenger page: the closure variables of
`setupPassengerPage`, the text of the elements it writes, the map sink, and
the platform state it acts on. -/
structure Passenger where
  /-- The content of `localStorage`. -/
  store : Store
  /-- The platform's interval timers. -/
  timers : Timers
  /-- The variable `currentBusNumber`; `none` is `null`. -/
  currentBusNumber : Option String
  /-- The variable `updateInterval`; `none` is `undefined`. -/
  updateInterval : Option Nat
  /-- Text of `#bus-number`. -/
  busNumberEl : String
  /-- Text of `#bus-status`. -/
  busStatusEl : String
  /-- Text of `#available-seats`. -/
  availableSeatsEl : String
  /-- Text of `#next-stop`. -/
  nextStopEl : String
  /-- Text of `#eta`. -/
  etaEl : String
  /-- Position last given to `busMarker` and accepted by it (`lat`, `lng`). -/
  markerLatLng : JSVal × JSVal
  /-- Whether `map.hasLayer(busMarker)`: the marker is shown on the map. -/
  markerOnMap : Bool
  /-- Centre last given to the map (`lat`, `lng`). -/
  mapCenter : JSVal × JSVal
  /-- Messages shown with `alert`. -/
  alerts : List String

/-- The read of line 150 for an identifier:
`JSON.parse(localStorage.getItem(BUS_LOCATION_PREFIX + busNumber))`; `none` when
`JSON.parse` throws. -/
def readLocation (store : Store) (busNumber : String) : Option JSVal :=
  jsonParse (store.getItem (BUS_LOCATION_PREFIX ++ busNumber))

/-- The condition of line 152:
`storedLocation && storedLocation.lat && storedLocation.lng`. -/
def hasCoordinates (storedLocation : JSVal) : Bool :=
  storedLocation.truthy && (storedLocation.get "lat").truthy
    && (storedLocation.get "lng").truthy

/-- The function `updateBusLocation` (lines 147-179); `r` is the value
`Math.random()` returns if it is called.  It throws, before any effect, when
`JSON.parse` rejects the stored string (line 150) or when `busMarker.setLatLng`
rejects the record (line 153); it throws with the marker and the view already
moved when `map.panTo` fails (line 154). -/
def updateBusLocation (s : Passenger) (r : ℚ) : Outcome Passenger :=
  match s.currentBusNumber with
  | none => .returned s
  | some busNumber =>
    if busNumber = "" then .returned s
    else
      match readLocation s.store busNumber with
      | none => .threw s
      | some storedLocation =>
        if hasCoordinates storedLocation then
          if latLngRejected storedLocation then .threw s
          else if panToRejected storedLocation then
            .threw
              { s with
                markerLatLng := (storedLocation.get "lat", storedLocation.get "lng")
                mapCenter := (storedLocation.get "lat", storedLocation.get "lng") }
          else
            let s1 : Passenger :=
              { s with
                markerLatLng := (storedLocation.get "lat", storedLocation.get "lng")
                mapCenter := (storedLocation.get "lat", storedLocation.get "lng")
                busStatusEl := "Live"
                markerOnMap := true }
            match MOCK_BUS_DATA busNumber with
            | .entry mockData =>
              .returned
                { s1 with
                  availableSeatsEl := toString mockData.seats
                  nextStopEl := mockData.nextStop
                  etaEl := etaText r }
            | .inherited =>
              .returned { s1 with availableSeatsEl := "", nextStopEl := "", etaEl := etaText r }
            | .missing => .returned s1
        else
          .returned
            { s with
              busStatusEl := "Location not available"
              availableSeatsEl := "--"
              nextStopEl := "--"
              etaEl := "--"
              markerOnMap := false }

/-- Line 189: `if (updateInterval) clearInterval(updateInterval)`.  A handle
that is `undefined` or `0` is falsy and nothing is cleared. -/
def clearPreviousInterval (s : Passenger) : Passenger :=
  match s.updateInterval with
  | some h => if h ≠ 0 then { s with timers := s.timers.clearInterval h } else s
  | none => s

/-- The function `handleSearch` (lines 182-197); `value` is `searchInput.value`
and `r` the value `Math.random()` returns if the immediate poll calls it. -/
def handleSearch (s : Passenger) (value : String) (r : ℚ) : Outcome Passenger :=
  let busNumber := jsTrim value
  if busNumber ≠ "" then
    let s1 : Passenger := { s with currentBusNumber := some busNumber, busNumberEl := busNumber }
    let s2 : Passenger := clearPreviousInterval s1
    match updateBusLocation s2 r with
    | .threw s3 => .threw s3
    | .returned s3 =>
      let (h, timers) := s3.timers.setInterval
      .returned { s3 with timers := timers, updateInterval := some h }
  else
    .returned { s with alerts := s.alerts ++ ["Please enter a bus number."] }

/-- The function `setupPassengerPage` with `initPassengerMap` (lines 110-144 and
199-208): the page state right after load.  The texts of the elements come from
the page markup, the store and the first timer handle from the platform. -/
def setupPassengerPage (store : Store) (firstHandle : Nat)
    (busNumberEl busStatusEl availableSeatsEl nextStopEl etaEl : String) : Passenger :=
  { store := store
    timers := { active := [], next := firstHandle }
    currentBusNumber := none
    updateInterval := none
    busNumberEl := busNumberEl
    busStatusEl := busStatusEl
    availableSeatsEl := availableSeatsEl
    nextStopEl := nextStopEl
    etaEl := etaEl
    markerLatLng := (.num (.fin 0), .num (.fin 0))
    markerOnMap := false
    mapCenter := (.num (.fin 28.9863), .num (.fin 77.0195))
    alerts := [] }

/-- What can happen to the passenger page after load: a search is submitted, an
interval timer fires, or another page of the same origin changes the store. -/
inductive PassengerEvent where
  | search (value : String) (r : ℚ)
  | tick (h : Nat) (r : ℚ)
  | storeSet (key : String) (value : Stored)
  | storeRemove (key : String)

/-- One event applied to the passenger page.  A timer that is not active does
not fire; an exception escaping a handler leaves the state reached so far. -/
def Passenger.step (s : Passenger) : PassengerEvent → Passenger
  | .search value r => (handleSearch s value r).state
  | .tick h r => if h ∈ s.timers.active then (updateBusLocation s r).state else s
  | .storeSet key value => { s with store := s.store.setItem key value }
  | .storeRemove key => { s with store := s.store.removeItem key }

/-- A sequence of events applied in order. -/
def Passenger.run (s : Passenger) (events : List PassengerEvent) : Passenger :=
  events.foldl Passenger.step s

/-! ## Driver page (lines 13-106) -/

/-- The state of the driver page: the closure variables of `setupDriverPage`,
the elements it writes, the map sink, and the platform state it acts on. -/
structure Driver where
  /-- The content of `localStorage`. -/
  store : Store
  /-- Whether `navigator.geolocation` is there. -/
  hasGeolocation : Bool
  /-- Handles of the active location watches. -/
  watches : List Nat
  /-- The handle the next `watchPosition` will return. -/
  nextWatch : Nat
  /-- Number of `getCurrentPosition` requests not yet answered. -/
  pendingFixes : Nat
  /-- The variable `watchId`; `none` is `undefined`. -/
  watchId : Option Nat
  /-- The variable `marker`: the position of the marker once `initDriverMap`
  has created the map; `none` is `undefined`. -/
  marker : Option (JSNum × JSNum)
  /-- Centre of the view of `map`; `none` while `map` is `undefined`. -/
  mapCenter : Option (JSNum × JSNum)
  /-- Text of `#sharing-status`. -/
  statusEl : String
  /-- The pair of coordinates `#current-coords` shows, each rendered with
  `toFixed(4)`; `none` while the element has the text of the page markup. -/
  coordsEl : Option (JSNum × JSNum)
  /-- Whether `#start-sharing-btn` has the class `hidden`. -/
  startBtnHidden : Bool
  /-- Whether `#stop-sharing-btn` has the class `hidden`. -/
  stopBtnHidden : Bool
  /-- Messages shown with `alert`. -/
  alerts : List String
  /-- Number of errors written with `console.error`. -/
  consoleErrors : Nat

/-- The function `initDriverMap` (lines 28-43): creates the map and the marker
at the first fix, and does nothing once the map is there.  `setView` throws on
a coordinate that is NaN, and then `map` and `marker` stay `undefined`; with an
infinite longitude the map is created but adding the tile layer throws, and
`marker` stays `undefined`. -/
def initDriverMap (d : Driver) (lat lng : JSNum) : Outcome Driver :=
  match d.mapCenter with
  | none =>
    if lat.isNaN || lng.isNaN then .threw d
    else if lng.isInfinite then .threw { d with mapCenter := some (lat, lng) }
    else .returned { d with mapCenter := some (lat, lng), marker := some (lat, lng) }
  | some _ => .returned d

/-- The success callback of `getCurrentPosition` (lines 53-58): the state it
leaves.  When `initDriverMap` throws, lines 56-57 do not run. -/
def onInitialFix (d : Driver) (latitude longitude : JSNum) : Driver :=
  match initDriverMap d latitude longitude with
  | .threw d1 => d1
  | .returned d1 =>
    { d1 with
      coordsEl := some (latitude, longitude)
      store := d1.store.setItem (BUS_LOCATION_PREFIX ++ BUS_NUMBER)
        (stringifyLocation latitude longitude) }

/-- The error callback of `getCurrentPosition` (lines 58-61). -/
def onInitialFixError (d : Driver) : Driver :=
  { d with
    consoleErrors := d.consoleErrors + 1
    alerts := d.alerts ++ ["Error getting location. Please enable location services."] }

/-- The success callback of `watchPosition` (lines 64-73): a location fix is
published under the fixed identifier; the state the callback leaves.  When the
marker is there and a coordinate is NaN, `marker.setLatLng` throws after the
record and the readout are written; when `map.panTo` throws, the marker and
the view have already moved. -/
def onWatchFix (d : Driver) (latitude longitude : JSNum) : Driver :=
  let d1 : Driver :=
    { d with
      store := d.store.setItem (BUS_LOCATION_PREFIX ++ BUS_NUMBER)
        (stringifyLocation latitude longitude)
      coordsEl := some (latitude, longitude) }
  match d1.marker with
  | some _ =>
    if latitude.isNaN || longitude.isNaN then d1
    else
      { d1 with marker := some (latitude, longitude), mapCenter := some (latitude, longitude) }
  | none => d1

/-- The error callback of `watchPosition` (lines 73-75). -/
def onWatchError (d : Driver) : Driver :=
  { d with consoleErrors := d.consoleErrors + 1 }

/-- The function `startSharing` (lines 46-86). -/
def startSharing (d : Driver) : Driver :=
  if !d.hasGeolocation then
    { d with
      alerts := d.alerts ++
        ["Geolocation is not supported by your browser. Cannot share location."] }
  else
    { d with
      pendingFixes := d.pendingFixes + 1
      watches := d.nextWatch :: d.watches
      nextWatch := d.nextWatch + 1
      watchId := some d.nextWatch
      statusEl := "Sharing is ON"
      startBtnHidden := true
      stopBtnHidden := false
      store := d.store.setItem SHARING_STATUS_KEY (.text "on") }

/-- The function `stopSharing` (lines 89-98). -/
def stopSharing (d : Driver) : Driver :=
  let d1 : Driver :=
    match d.watchId with
    | some h => if h ≠ 0 then { d with watches := d.watches.filter (fun w => w ≠ h) } else d
    | none => d
  { d1 with
    statusEl := "Sharing is OFF"
    startBtnHidden := false
    stopBtnHidden := true
    store := (d1.store.setItem SHARING_STATUS_KEY (.text "off")).removeItem
      (BUS_LOCATION_PREFIX ++ BUS_NUMBER) }

/-- The page before `setupDriverPage` runs its last statement: nothing watched,
no map, the elements as the page markup has them. -/
def driverPageLoaded (store : Store) (hasGeolocation : Bool) (firstWatch : Nat)
    (statusEl : String) (startBtnHidden stopBtnHidden : Bool) : Driver :=
  { store := store
    hasGeolocation := hasGeolocation
    watches := []
    nextWatch := firstWatch
    pendingFixes := 0
    watchId := none
    marker := none
    mapCenter := none
    statusEl := statusEl
    coordsEl := none
    startBtnHidden := startBtnHidden
    stopBtnHidden := stopBtnHidden
    alerts := []
    consoleErrors := 0 }

/-- The function `setupDriverPage` (lines 13-106): after wiring the buttons it
starts sharing when the persisted status is `on`. -/
def setupDriverPage (store : Store) (hasGeolocation : Bool) (firstWatch : Nat)
    (statusEl : String) (startBtnHidden stopBtnHidden : Bool) : Driver :=
  let d := driverPageLoaded store hasGeolocation firstWatch statusEl startBtnHidden stopBtnHidden
  if Stored.isText (d.store.getItem SHARING_STATUS_KEY) "on" then startSharing d else d

/-- What can happen on the driver page after load: a click on either button, or
the platform answering a location request. -/
inductive DriverEvent where
  | clickStart
  | clickStop
  | initialFix (latitude longitude : JSNum)
  | initialFixError
  | watchFix (h : Nat) (latitude longitude : JSNum)
  | watchError (h : Nat)

/-- One event applied to the driver page.  A callback runs only for a request
that is outstanding or a watch that is active. -/
def Driver.step (d : Driver) : DriverEvent → Driver
  | .clickStart => startSharing d
  | .clickStop => stopSharing d
  | .initialFix latitude longitude =>
    if 0 < d.pendingFixes then
      onInitialFix { d with pendingFixes := d.pendingFixes - 1 } latitude longitude
    else d
  | .initialFixError =>
    if 0 < d.pendingFixes then onInitialFixError { d with pendingFixes := d.pendingFixes - 1 }
    else d
  | .watchFix h latitude longitude =>
    if h ∈ d.watches then onWatchFix d latitude longitude else d
  | .watchError h => if h ∈ d.watches then onWatchError d else d

/-- A sequence of events applied in order. -/
def Driver.run (d : Driver) (events : List DriverEvent) : Driver :=
  events.foldl Driver.step d

/-! ## Observations and sample states -/

/-- What the passenger page displays: status, position and visibility of the
map indicator, seat count, next stop and ETA. -/
def Passenger.shown (s : Passenger) :
    String × (JSVal × JSVal) × Bool × String × String × String :=
  (s.busStatusEl, s.markerLatLng, s.markerOnMap, s.availableSeatsEl, s.nextStopEl, s.etaEl)

/-- Whether a poll of `busNumber` over this store runs to its end: line 150
does not throw, and for a record whose coordinates are both truthy lines 153
and 154 do not throw. -/
def pollCompletes (store : Store) (busNumber : String) : Bool :=
  match readLocation store busNumber with
  | none => false
  | some storedLocation =>
    !(hasCoordinates storedLocation
      && (latLngRejected storedLocation || panToRejected storedLocation))

/-- The value is a location record with valid coordinates: its `lat` and `lng`
are the numbers `a` and `b`, both non-zero and within the geographic range, and
it has no `alt`. -/
def isValidRecord (v : JSVal) (a b : ℚ) : Prop :=
  v.get "lat" = .num (.fin a) ∧ v.get "lng" = .num (.fin b) ∧ a ≠ 0 ∧ b ≠ 0
    ∧ |a| ≤ 90 ∧ |b| ≤ 180 ∧ v.get "alt" = .undefined

/-- The entry of an identifier is one of those the persisted layout holds: it
is absent, or JSON text in which `lat` or `lng` is missing or falsy, or a
location record with valid coordinates. -/
def holdsPlainEntry (store : Store) (busNumber : String) : Prop :=
  ∃ v, readLocation store busNumber = some v ∧
    (hasCoordinates v = false ∨ ∃ a b : ℚ, isValidRecord v a b)

/-- The timers of the page are exactly the one kept in `updateInterval`: the
platform hands out non-zero handles, every handle kept is one it handed out,
and no timer other than the kept one is active. -/
def Passenger.TimersTracked (s : Passenger) : Prop :=
  0 < s.timers.next ∧
    match s.updateInterval with
    | none => s.timers.active = []
    | some h => 0 < h ∧ h < s.timers.next ∧ (s.timers.active = [h] ∨ s.timers.active = [])

/-- The states the passenger page can be in: those reached from a freshly
loaded page (any store, any page markup, a non-zero first timer handle) by a
sequence of events. -/
def Passenger.Reachable (s : Passenger) : Prop :=
  ∃ (store : Store) (firstHandle : Nat)
    (busNumberEl busStatusEl availableSeatsEl nextStopEl etaEl : String)
    (events : List PassengerEvent),
    0 < firstHandle ∧
      s = (setupPassengerPage store firstHandle busNumberEl busStatusEl availableSeatsEl
            nextStopEl etaEl).run events

/-- A driver page loaded over an empty store, with location capability. -/
def sampleDriver : Driver := driverPageLoaded Store.empty true 1 "Sharing is OFF" false true

/-- A passenger page just loaded over the given store. -/
def samplePassenger (store : Store) : Passenger :=
  setupPassengerPage store 1 "" "" "--" "--" "--"

/-- The store after the driver published a fix on the equator, (0, 77.0195). -/
def equatorStore : Store := (onWatchFix sampleDriver (.fin 0) (.fin 77.0195)).store

/-- The store after the driver published the fix (28.9863, 77.0195). -/
def liveStore : Store := (onWatchFix sampleDriver (.fin 28.9863) (.fin 77.0195)).store

/-- A store with records for the identifiers 101 and 555; the second has no
entry in `MOCK_BUS_DATA`. -/
def twoBusStore : Store :=
  liveStore.setItem "bus_location_555" (stringifyLocation (.fin 28.98) (.fin 77.015))

/-- The passenger page after this history: 555 is searched while it has no
record, then a record for 555 is written to the store, then the poll timer
fires. -/
def staleEtaPage : Passenger :=
  (samplePassenger Store.empty).run
    [.search "555" (1 / 2),
     .storeSet "bus_location_555" (stringifyLocation (.fin 28.98) (.fin 77.015)),
     .tick 1 (1 / 2)]

/-- The passenger page polling identifier 101 over `liveStore`, before a poll. -/
def pollingPage : Passenger :=
  { samplePassenger liveStore with currentBusNumber := some "101", busNumberEl := "101" }

/-- The passenger page with identifier 999 current, over the empty store. -/
def absentPage : Passenger :=
  { samplePassenger Store.empty with currentBusNumber := some "999", busNumberEl := "999" }

/-- The passenger page with identifier 101 current, over a store whose entry
for 101 is an object with `lat` and no `lng`. -/
def malformedPage : Passenger :=
  { samplePassenger
      (Store.empty.setItem "bus_location_101" (.json (.obj [("lat", .num (.fin 28.9863))]))) with
    currentBusNumber := some "101", busNumberEl := "101" }

/-- The passenger page over `liveStore` after 101 was searched. -/
def searchedPage : Passenger := (handleSearch (samplePassenger liveStore) "101" 0).state

/-- The passenger page over `twoBusStore` after 101 was searched. -/
def afterSearch101 : Passenger := (handleSearch (samplePassenger twoBusStore) "101" 0).state

/-- The same page after 555 was searched next. -/
def afterSearch555 : Passenger := (handleSearch afterSearch101 "555" (1 / 2)).state

/-- The store `liveStore` with, for 102, an entry that is not JSON text. -/
def brokenTextStore : Store := liveStore.setItem "bus_location_102" (.text "offline")

/-- The store `liveStore` with, for 102, a record whose coordinates are
truthy strings that are not numbers. -/
def brokenRecordStore : Store :=
  liveStore.setItem "bus_location_102"
    (.json (.obj [("lat", .str "abc"), ("lng", .str "def")]))

/-! ## Store and key facts -/

theorem locationKey_101 : BUS_LOCATION_PREFIX ++ BUS_NUMBER = "bus_location_101" := by decide

theorem locationKey_literal : BUS_LOCATION_PREFIX ++ "101" = "bus_location_101" := by decide

theorem statusKey_literal : SHARING_STATUS_KEY = "sharing_status" := rfl

theorem getItem_setItem_same (st : Store) (key : String) (value : Stored) :
    (st.setItem key value).getItem key = some value := by
  simp [Store.getItem, Store.setItem]

theorem getItem_setItem_other (st : Store) (key other : String) (value : Stored)
    (h : other ≠ key) : (st.setItem key value).getItem other = st.getItem other := by
  simp [Store.getItem, Store.setItem, h]

theorem getItem_removeItem_same (st : Store) (key : String) :
    (st.removeItem key).getItem key = none := by
  simp [Store.getItem, Store.removeItem]

theorem getItem_removeItem_other (st : Store) (key other : String) (h : other ≠ key) :
    (st.removeItem key).getItem other = st.getItem other := by
  simp [Store.getItem, Store.removeItem, h]

theorem onWatchFix_store (d : Driver) (latitude longitude : JSNum) :
    (onWatchFix d latitude longitude).store
      = d.store.setItem "bus_location_101" (stringifyLocation latitude longitude) := by
  unfold onWatchFix
  rw [locationKey_101]
  cases hm : d.marker with
  | none => simp [hm]
  | some m => by_cases hn : (latitude.isNaN || longitude.isNaN) = true <;> simp [hm, hn]

theorem isNaN_of_isFinite (n : JSNum) (h : n.isFinite = true) : n.isNaN = false := by
  cases n <;> simp_all [JSNum.isFinite, JSNum.isNaN]

theorem isInfinite_of_isFinite (n : JSNum) (h : n.isFinite = true) : n.isInfinite = false := by
  cases n <;> simp_all [JSNum.isFinite, JSNum.isInfinite]

theorem onInitialFix_store (d : Driver) (latitude longitude : JSNum)
    (hlat : latitude.isFinite = true) (hlng : longitude.isFinite = true) :
    (onInitialFix d latitude longitude).store
      = d.store.setItem "bus_location_101" (stringifyLocation latitude longitude) := by
  unfold onInitialFix initDriverMap
  rw [locationKey_101]
  cases hm : d.mapCenter <;>
    simp [isNaN_of_isFinite _ hlat, isNaN_of_isFinite _ hlng, isInfinite_of_isFinite _ hlng]

theorem jsonNumber_finite (n : JSNum) (h : n.isFinite = true) :
    ∃ m : JSNum,
      jsonNumber n = .num m ∧ m.strictEq n = true ∧ ∀ q, n = .fin q → m = .fin q := by
  cases n with
  | fin q => exact ⟨.fin q, rfl, by simp [JSNum.strictEq], fun _ h => h⟩
  | negZero => exact ⟨.fin 0, rfl, by simp [JSNum.strictEq], fun _ h => by cases h⟩
  | posInf => simp [JSNum.isFinite] at h
  | negInf => simp [JSNum.isFinite] at h
  | nan => simp [JSNum.isFinite] at h

theorem readLocation_published (st : Store) (latitude longitude : JSNum)
    (hlat : latitude.isFinite = true) (hlng : longitude.isFinite = true) :
    ∃ lat lng : JSNum,
      readLocation (st.setItem "bus_location_101" (stringifyLocation latitude longitude)) "101"
        = some (.obj [("lat", .num lat), ("lng", .num lng)])
      ∧ lat.strictEq latitude = true ∧ lng.strictEq longitude = true
      ∧ (∀ q, latitude = .fin q → lat = .fin q)
      ∧ (∀ q, longitude = .fin q → lng = .fin q) := by
  obtain ⟨a, ha, hae, haq⟩ := jsonNumber_finite latitude hlat
  obtain ⟨b, hb, hbe, hbq⟩ := jsonNumber_finite longitude hlng
  refine ⟨a, b, ?_, hae, hbe, haq, hbq⟩
  rw [readLocation, locationKey_literal, getItem_setItem_same]
  simp [jsonParse, stringifyLocation, ha, hb]

/-! ## Rounding to binary64 and the ETA range -/

theorem roundHalfEven_ge_floor (y : ℚ) : ⌊y⌋ ≤ roundHalfEven y := by
  unfold roundHalfEven
  simp only
  split_ifs <;> omega

theorem roundHalfEven_nonneg (y : ℚ) (h : 0 ≤ y) : 0 ≤ roundHalfEven y :=
  le_trans (Int.floor_nonneg.mpr h) (roundHalfEven_ge_floor y)

theorem roundHalfEven_le (y : ℚ) (N : ℤ) (h : y ≤ N) : roundHalfEven y ≤ N := by
  have hfl : (⌊y⌋ : ℚ) ≤ y := Int.floor_le y
  have hf : ⌊y⌋ ≤ N := by exact_mod_cast le_trans hfl h
  unfold roundHalfEven
  simp only
  by_cases h1 : y - ⌊y⌋ < 1 / 2
  · rw [if_pos h1]; exact hf
  · have hlt : ⌊y⌋ < N := by
      rcases lt_or_eq_of_le hf with hlt | heq
      · exact hlt
      · exfalso
        apply h1
        have : (⌊y⌋ : ℚ) = N := by exact_mod_cast heq
        linarith
    split_ifs <;> omega

theorem roundHalfEven_le_pred (y : ℚ) (N : ℤ) (h : y ≤ N - 5 / 8) :
    roundHalfEven y ≤ N - 1 := by
  have hfl : (⌊y⌋ : ℚ) ≤ y := Int.floor_le y
  have hf : ⌊y⌋ < N := by
    have : (⌊y⌋ : ℚ) < N := by linarith
    exact_mod_cast this
  unfold roundHalfEven
  simp only
  by_cases h1 : y - ⌊y⌋ < 1 / 2
  · rw [if_pos h1]; omega
  · have hlt : ⌊y⌋ < N - 1 := by
      by_contra hge
      have heq : ⌊y⌋ = N - 1 := by omega
      apply h1
      have : (⌊y⌋ : ℚ) = N - 1 := by exact_mod_cast heq
      linarith
    split_ifs <;> omega

theorem roundHalfEven_intCast (n : ℤ) : roundHalfEven (n : ℚ) = n := by
  simp [roundHalfEven]

theorem toDouble_nonneg (x : ℚ) (h : 0 ≤ x) : 0 ≤ toDouble x := by
  unfold toDouble
  split_ifs with h0
  · exact le_refl 0
  · simp only
    have hu : (0 : ℚ) < 2 ^ (max (Int.log 2 |x|) (-1022) - 52) := by positivity
    have := roundHalfEven_nonneg (x / 2 ^ (max (Int.log 2 |x|) (-1022) - 52)) (by positivity)
    have hc : (0 : ℚ) ≤ roundHalfEven (x / 2 ^ (max (Int.log 2 |x|) (-1022) - 52)) := by
      exact_mod_cast this
    positivity

/-- Below 8 the rounded value does not exceed 8. -/
theorem toDouble_le_eight (x : ℚ) (h0 : 0 < x) (h8 : x < 8) : toDouble x ≤ 8 := by
  unfold toDouble
  rw [if_neg (ne_of_gt h0)]
  simp only
  rw [abs_of_pos h0]
  set e := max (Int.log 2 x) (-1022) with he
  have hlog : Int.log 2 x < 3 := by
    rw [← Int.lt_zpow_iff_log_lt (by norm_num) h0]
    norm_num
    linarith
  have he2 : e ≤ 2 := by
    rw [he]; exact max_le (by omega) (by norm_num)
  have hu : (0 : ℚ) < 2 ^ (e - 52) := by positivity
  -- 8 is the multiple 2 ^ (55 - e) of the unit
  obtain ⟨k, hk⟩ : ∃ k : ℕ, 55 - e = k := ⟨(55 - e).toNat, by omega⟩
  have h8u : (8 : ℚ) = ((2 ^ k : ℕ) : ℤ) * 2 ^ (e - 52) := by
    push_cast
    rw [← zpow_natCast, ← hk, ← zpow_add₀ (by norm_num : (2 : ℚ) ≠ 0)]
    have : 55 - e + (e - 52) = 3 := by ring
    rw [this]; norm_num
  have hy : x / 2 ^ (e - 52) ≤ (((2 ^ k : ℕ) : ℤ) : ℚ) := by
    rw [div_le_iff₀ hu, ← h8u]; exact h8.le
  have hr := roundHalfEven_le _ _ hy
  have hr' : (roundHalfEven (x / 2 ^ (e - 52)) : ℚ) ≤ (((2 ^ k : ℕ) : ℤ) : ℚ) := by
    exact_mod_cast hr
  calc (roundHalfEven (x / 2 ^ (e - 52)) : ℚ) * 2 ^ (e - 52)
      ≤ (((2 ^ k : ℕ) : ℤ) : ℚ) * 2 ^ (e - 52) := by
        exact mul_le_mul_of_nonneg_right hr' hu.le
    _ = 8 := h8u.symm


/-- Between 8 and `10 - 10 / 2 ^ 53` the rounded value stays below 10. -/
theorem toDouble_lt_ten_of_ge_eight (x : ℚ) (h8 : 8 ≤ x) (hx : x ≤ 10 - 10 / 2 ^ 53) :
    toDouble x < 10 := by
  have h0 : 0 < x := by linarith
  unfold toDouble
  rw [if_neg (ne_of_gt h0)]
  simp only
  rw [abs_of_pos h0]
  have hlog : Int.log 2 x = 3 := by
    apply le_antisymm
    · have : Int.log 2 x < 4 := by
        rw [← Int.lt_zpow_iff_log_lt (by norm_num) h0]
        norm_num
        have : (10 : ℚ) - 10 / 2 ^ 53 < 16 := by norm_num
        linarith
      omega
    · rw [← Int.zpow_le_iff_le_log (by norm_num) h0]
      norm_num
      exact h8
  rw [hlog]
  have hmax : max (3 : ℤ) (-1022) - 52 = -49 := by norm_num
  rw [hmax]
  have hu : (0 : ℚ) < 2 ^ (-49 : ℤ) := by positivity
  have hy : x / 2 ^ (-49 : ℤ) ≤ ((10 * 2 ^ 49 : ℤ) : ℚ) - 5 / 8 := by
    rw [div_le_iff₀ hu]
    have : (((10 * 2 ^ 49 : ℤ) : ℚ) - 5 / 8) * 2 ^ (-49 : ℤ) = 10 - 10 / 2 ^ 53 := by
      norm_num
    rw [this]; exact hx
  have hr := roundHalfEven_le_pred _ _ hy
  have hr' : (roundHalfEven (x / 2 ^ (-49 : ℤ)) : ℚ) ≤ ((10 * 2 ^ 49 - 1 : ℤ) : ℚ) := by
    exact_mod_cast hr
  calc (roundHalfEven (x / 2 ^ (-49 : ℤ)) : ℚ) * 2 ^ (-49 : ℤ)
      ≤ ((10 * 2 ^ 49 - 1 : ℤ) : ℚ) * 2 ^ (-49 : ℤ) := mul_le_mul_of_nonneg_right hr' hu.le
    _ < 10 := by norm_num

theorem toDouble_lt_ten (x : ℚ) (h0 : 0 ≤ x) (hx : x ≤ 10 - 10 / 2 ^ 53) :
    toDouble x < 10 := by
  rcases eq_or_lt_of_le h0 with hz | hpos
  · rw [← hz]; simp [toDouble]
  · rcases lt_or_le x 8 with h8 | h8
    · exact lt_of_le_of_lt (toDouble_le_eight x hpos h8) (by norm_num)
    · exact toDouble_lt_ten_of_ge_eight x h8 hx

/-- A binary64 number below 1 is at most `1 - 2 ^ (-53)`. -/
theorem double_lt_one_le (r : ℚ) (hd : toDouble r = r) (h0 : 0 ≤ r) (h1 : r < 1) :
    r ≤ 1 - 1 / 2 ^ 53 := by
  rcases eq_or_lt_of_le h0 with hz | hpos
  · rw [← hz]; norm_num
  · have hlog : Int.log 2 r < 0 := by
      rw [← Int.lt_zpow_iff_log_lt (by norm_num) hpos]
      simpa using h1
    rcases lt_or_le (Int.log 2 r) (-1) with hl | hl
    · -- below one half
      have : r < (2 : ℚ) ^ (Int.log 2 r + 1) := by
        have := Int.lt_zpow_succ_log_self (b := 2) (by norm_num) r
        simpa using this
      have hle : (2 : ℚ) ^ (Int.log 2 r + 1) ≤ 2 ^ (-1 : ℤ) :=
        zpow_le_zpow_right₀ (by norm_num) (by omega)
      have : r < 2 ^ (-1 : ℤ) := lt_of_lt_of_le this hle
      norm_num at this
      have : (2:ℚ)⁻¹ ≤ 1 - 1 / 2 ^ 53 := by norm_num
      linarith
    · have heq : Int.log 2 r = -1 := by omega
      unfold toDouble at hd
      rw [if_neg (ne_of_gt hpos)] at hd
      simp only at hd
      rw [abs_of_pos hpos, heq] at hd
      have hmax : max (-1 : ℤ) (-1022) - 52 = -53 := by norm_num
      rw [hmax] at hd
      set n := roundHalfEven (r / 2 ^ (-53 : ℤ)) with hn
      have hlt : (n : ℚ) < ((2 ^ 53 : ℤ) : ℚ) := by
        have : (n : ℚ) * 2 ^ (-53 : ℤ) < 1 := by rw [hd]; exact h1
        have h2 : (n : ℚ) * 2 ^ (-53 : ℤ) = n / 2 ^ 53 := by norm_num [div_eq_mul_inv]
        rw [h2, div_lt_one (by positivity)] at this
        exact_mod_cast this
      have hle : n ≤ 2 ^ 53 - 1 := by
        have : n < 2 ^ 53 := by exact_mod_cast hlt
        omega
      have hle' : (n : ℚ) ≤ ((2 ^ 53 - 1 : ℤ) : ℚ) := by exact_mod_cast hle
      rw [← hd]
      calc (n : ℚ) * 2 ^ (-53 : ℤ) ≤ ((2 ^ 53 - 1 : ℤ) : ℚ) * 2 ^ (-53 : ℤ) :=
            mul_le_mul_of_nonneg_right hle' (by positivity)
        _ = 1 - 1 / 2 ^ 53 := by norm_num

theorem etaMinutes_bounds (r : ℚ) (hd : toDouble r = r) (h0 : 0 ≤ r) (h1 : r < 1) :
    1 ≤ etaMinutes r ∧ etaMinutes r ≤ 10 := by
  have hr := double_lt_one_le r hd h0 h1
  have hx : r * 10 ≤ 10 - 10 / 2 ^ 53 := by linarith
  have hx0 : 0 ≤ r * 10 := by positivity
  have hlt := toDouble_lt_ten (r * 10) hx0 hx
  have hge := toDouble_nonneg (r * 10) hx0
  unfold etaMinutes
  have hf0 : 0 ≤ ⌊toDouble (r * 10)⌋ := Int.floor_nonneg.mpr hge
  have hf9 : ⌊toDouble (r * 10)⌋ < 10 := Int.floor_lt.mpr (by exact_mod_cast hlt)
  omega

theorem toDouble_five : toDouble 5 = 5 := by
  have hlog : Int.log 2 (5 : ℚ) = 2 := by
    apply le_antisymm
    · have : Int.log 2 (5 : ℚ) < 3 := by
        rw [← Int.lt_zpow_iff_log_lt (by norm_num) (by norm_num)]
        norm_num
      omega
    · rw [← Int.zpow_le_iff_le_log (by norm_num) (by norm_num)]
      norm_num
  unfold toDouble
  rw [if_neg (by norm_num)]
  simp only
  rw [abs_of_pos (by norm_num), hlog]
  have hmax : max (2 : ℤ) (-1022) - 52 = -50 := by norm_num
  rw [hmax]
  have : (5 : ℚ) / 2 ^ (-50 : ℤ) = ((5 * 2 ^ 50 : ℤ) : ℚ) := by norm_num
  rw [this, roundHalfEven_intCast]
  norm_num

theorem toDouble_half : toDouble (1 / 2) = 1 / 2 := by
  have hlog : Int.log 2 (1 / 2 : ℚ) = -1 := by
    have : (1 / 2 : ℚ) = (2 : ℕ) ^ (-1 : ℤ) := by norm_num
    rw [this, Int.log_zpow (by norm_num)]
  unfold toDouble
  rw [if_neg (by norm_num)]
  simp only
  rw [abs_of_pos (by norm_num), hlog]
  have hmax : max (-1 : ℤ) (-1022) - 52 = -53 := by norm_num
  rw [hmax]
  have : (1 / 2 : ℚ) / 2 ^ (-53 : ℤ) = ((2 ^ 52 : ℤ) : ℚ) := by norm_num
  rw [this, roundHalfEven_intCast]
  norm_num

theorem etaMinutes_zero : etaMinutes 0 = 1 := by
  simp [etaMinutes, toDouble]

theorem etaMinutes_half : etaMinutes (1 / 2) = 6 := by
  have : (1 / 2 : ℚ) * 10 = 5 := by norm_num
  rw [etaMinutes, this, toDouble_five]
  norm_num

/-! ## The poll, case by case -/

theorem updateBusLocation_idle (s : Passenger) (r : ℚ)
    (h : s.currentBusNumber = none ∨ s.currentBusNumber = some "") :
    updateBusLocation s r = .returned s := by
  rcases h with h | h <;> simp [updateBusLocation, h]

theorem updateBusLocation_threw (s : Passenger) (busNumber : String) (r : ℚ)
    (hcur : s.currentBusNumber = some busNumber) (hne : busNumber ≠ "")
    (hread : readLocation s.store busNumber = none) :
    updateBusLocation s r = .threw s := by
  simp [updateBusLocation, hcur, hne, hread]

theorem updateBusLocation_notLive (s : Passenger) (busNumber : String) (r : ℚ) (v : JSVal)
    (hcur : s.currentBusNumber = some busNumber) (hne : busNumber ≠ "")
    (hread : readLocation s.store busNumber = some v) (hv : hasCoordinates v = false) :
    updateBusLocation s r = .returned
      { s with
        busStatusEl := "Location not available"
        availableSeatsEl := "--"
        nextStopEl := "--"
        etaEl := "--"
        markerOnMap := false } := by
  simp [updateBusLocation, hcur, hne, hread, hv]

theorem updateBusLocation_rejected (s : Passenger) (busNumber : String) (r : ℚ) (v : JSVal)
    (hcur : s.currentBusNumber = some busNumber) (hne : busNumber ≠ "")
    (hread : readLocation s.store busNumber = some v) (hv : hasCoordinates v = true)
    (hrej : latLngRejected v = true) :
    updateBusLocation s r = .threw s := by
  simp [updateBusLocation, hcur, hne, hread, hv, hrej]

theorem updateBusLocation_panRejected (s : Passenger) (busNumber : String) (r : ℚ)
    (v : JSVal) (hcur : s.currentBusNumber = some busNumber) (hne : busNumber ≠ "")
    (hread : readLocation s.store busNumber = some v) (hv : hasCoordinates v = true)
    (hok : latLngRejected v = false) (hpan : panToRejected v = true) :
    updateBusLocation s r = .threw
      { s with
        markerLatLng := (v.get "lat", v.get "lng")
        mapCenter := (v.get "lat", v.get "lng") } := by
  simp [updateBusLocation, hcur, hne, hread, hv, hok, hpan]

theorem updateBusLocation_live (s : Passenger) (busNumber : String) (r : ℚ) (v : JSVal)
    (hcur : s.currentBusNumber = some busNumber) (hne : busNumber ≠ "")
    (hread : readLocation s.store busNumber = some v) (hv : hasCoordinates v = true)
    (hok : latLngRejected v = false) (hpan : panToRejected v = false) :
    updateBusLocation s r =
      match MOCK_BUS_DATA busNumber with
      | .entry mockData =>
        .returned
          { s with
            markerLatLng := (v.get "lat", v.get "lng")
            mapCenter := (v.get "lat", v.get "lng")
            busStatusEl := "Live"
            markerOnMap := true
            availableSeatsEl := toString mockData.seats
            nextStopEl := mockData.nextStop
            etaEl := etaText r }
      | .inherited =>
        .returned
          { s with
            markerLatLng := (v.get "lat", v.get "lng")
            mapCenter := (v.get "lat", v.get "lng")
            busStatusEl := "Live"
            markerOnMap := true
            availableSeatsEl := ""
            nextStopEl := ""
            etaEl := etaText r }
      | .missing =>
        .returned
          { s with
            markerLatLng := (v.get "lat", v.get "lng")
            mapCenter := (v.get "lat", v.get "lng")
            busStatusEl := "Live"
            markerOnMap := true } := by
  simp only [updateBusLocation, hcur, hne, hread, hv, hok, hpan, if_false, if_true,
    Bool.false_eq_true]

/-- The poll touches neither the store, nor the timers, nor the closure
variables of the page. -/
theorem updateBusLocation_frame (s : Passenger) (r : ℚ) :
    (updateBusLocation s r).state.store = s.store
    ∧ (updateBusLocation s r).state.timers = s.timers
    ∧ (updateBusLocation s r).state.currentBusNumber = s.currentBusNumber
    ∧ (updateBusLocation s r).state.updateInterval = s.updateInterval
    ∧ (updateBusLocation s r).state.busNumberEl = s.busNumberEl
    ∧ (updateBusLocation s r).state.alerts = s.alerts := by
  cases hcur : s.currentBusNumber with
  | none => rw [updateBusLocation_idle s r (Or.inl hcur)]; simp [Outcome.state, hcur]
  | some k =>
    by_cases hk : k = ""
    · subst hk
      rw [updateBusLocation_idle s r (Or.inr hcur)]; simp [Outcome.state, hcur]
    · cases hread : readLocation s.store k with
      | none => rw [updateBusLocation_threw s k r hcur hk hread]; simp [Outcome.state, hcur]
      | some v =>
        cases hv : hasCoordinates v with
        | false =>
          rw [updateBusLocation_notLive s k r v hcur hk hread hv]; simp [Outcome.state, hcur]
        | true =>
          cases hrej : latLngRejected v with
          | true =>
            rw [updateBusLocation_rejected s k r v hcur hk hread hv hrej]
            simp [Outcome.state, hcur]
          | false =>
            cases hpan : panToRejected v with
            | true =>
              rw [updateBusLocation_panRejected s k r v hcur hk hread hv hrej hpan]
              simp [Outcome.state, hcur]
            | false =>
              rw [updateBusLocation_live s k r v hcur hk hread hv hrej hpan]
              cases MOCK_BUS_DATA k <;> simp [Outcome.state, hcur]

theorem mock_101_entry :
    MOCK_BUS_DATA "101"
      = .entry
          { lat := 28.9863, lng := 77.0195, nextStop := "Mordern velly ,kharar", seats := 25 } := by
  simp [MOCK_BUS_DATA]

theorem mock_555_missing : MOCK_BUS_DATA "555" = .missing := by
  simp [MOCK_BUS_DATA, objectPrototypeNames]

/-- A location record with valid coordinates passes the test of line 152 and
is accepted by the map. -/
theorem valid_record_accepted (v : JSVal) (a b : ℚ) (h : isValidRecord v a b) :
    hasCoordinates v = true ∧ latLngRejected v = false ∧ panToRejected v = false := by
  obtain ⟨hlat, hlng, ha, hb, _, _, halt⟩ := h
  have hv : v.truthy = true := by
    cases v <;> simp_all [JSVal.get, JSVal.truthy]
  refine ⟨?_, ?_, ?_⟩
  · rw [hasCoordinates, hv, hlat, hlng]
    simp [JSVal.truthy, JSNum.truthy, ha, hb]
  · simp [latLngRejected, hlat, hlng, halt, JSVal.notANumber, JSVal.toNumberKind, JSNum.kind]
  · simp [panToRejected, hlng, JSVal.toNumberKind, JSNum.kind]

/-- A record whose `lat` and `lng` are finite numbers and which has no `alt`
is never rejected by the map. -/
theorem finite_record_not_rejected (v : JSVal) (a b : ℚ)
    (hlat : v.get "lat" = .num (.fin a)) (hlng : v.get "lng" = .num (.fin b))
    (halt : v.get "alt" = .undefined) :
    latLngRejected v = false ∧ panToRejected v = false := by
  refine ⟨?_, ?_⟩
  · simp [latLngRejected, hlat, hlng, halt, JSVal.notANumber, JSVal.toNumberKind, JSNum.kind]
  · simp [panToRejected, hlng, JSVal.toNumberKind, JSNum.kind]

/-! ## The search handler -/

theorem handleSearch_nonempty (s : Passenger) (value : String) (r : ℚ)
    (h : jsTrim value ≠ "") :
    handleSearch s value r =
      match updateBusLocation
          (clearPreviousInterval
            { s with currentBusNumber := some (jsTrim value), busNumberEl := jsTrim value }) r with
      | .threw s3 => .threw s3
      | .returned s3 =>
        .returned
          { s3 with
            timers := { active := s3.timers.next :: s3.timers.active, next := s3.timers.next + 1 }
            updateInterval := some s3.timers.next } := by
  simp only [handleSearch, h, ne_eq, not_false_eq_true, if_true, Timers.setInterval]

theorem handleSearch_blank (s : Passenger) (value : String) (r : ℚ)
    (hempty : jsTrim value = "") :
    handleSearch s value r
      = .returned { s with alerts := s.alerts ++ ["Please enter a bus number."] } := by
  simp [handleSearch, hempty]

theorem clearPreviousInterval_frame (s : Passenger) :
    (clearPreviousInterval s).store = s.store
    ∧ (clearPreviousInterval s).currentBusNumber = s.currentBusNumber
    ∧ (clearPreviousInterval s).updateInterval = s.updateInterval
    ∧ (clearPreviousInterval s).timers.next = s.timers.next := by
  cases hu : s.updateInterval with
  | none => simp [clearPreviousInterval, hu]
  | some h => by_cases h0 : h = 0 <;> simp [clearPreviousInterval, hu, h0, Timers.clearInterval]

theorem clearPreviousInterval_fresh (s : Passenger) (h : s.updateInterval = none) :
    clearPreviousInterval s = s := by
  simp [clearPreviousInterval, h]

theorem jsTrim_101 : jsTrim "101" = "101" := by decide

theorem jsTrim_555 : jsTrim "555" = "555" := by decide

/-! ## Concrete stores -/

theorem liveStore_read :
    readLocation liveStore "101"
      = some (.obj [("lat", .num (.fin 28.9863)), ("lng", .num (.fin 77.0195))]) := by
  rw [liveStore, onWatchFix_store, readLocation, locationKey_literal, getItem_setItem_same]
  rfl

theorem hasCoordinates_sample (a b : ℚ) (ha : a ≠ 0) (hb : b ≠ 0) :
    hasCoordinates (.obj [("lat", .num (.fin a)), ("lng", .num (.fin b))]) = true := by
  simp [hasCoordinates, JSVal.truthy, JSVal.get, JSNum.truthy, List.lookup, ha, hb]

theorem twoBusStore_read_101 :
    readLocation twoBusStore "101"
      = some (.obj [("lat", .num (.fin 28.9863)), ("lng", .num (.fin 77.0195))]) := by
  rw [← liveStore_read, twoBusStore, readLocation, readLocation, locationKey_literal,
    getItem_setItem_other _ _ _ _ (by decide)]

theorem twoBusStore_read_555 :
    readLocation twoBusStore "555"
      = some (.obj [("lat", .num (.fin 28.98)), ("lng", .num (.fin 77.015))]) := by
  have hkey : BUS_LOCATION_PREFIX ++ "555" = "bus_location_555" := by decide
  rw [twoBusStore, readLocation, hkey, getItem_setItem_same]
  rfl

theorem etaText_zero : etaText 0 = "1 mins" := by
  rw [etaText, etaMinutes_zero]; decide

theorem etaText_half : etaText (1 / 2) = "6 mins" := by
  rw [etaText, etaMinutes_half]; decide

theorem not_minutes_text (n : ℤ) : "--" ≠ toString n ++ " mins" := by
  intro h
  have hlen := congrArg String.length h
  rw [String.length_append] at hlen
  have h2 : "--".length = 2 := by decide
  have h5 : " mins".length = 5 := by decide
  omega

theorem latLngRejected_sample (a b : ℚ) :
    latLngRejected (.obj [("lat", .num (.fin a)), ("lng", .num (.fin b))]) = false :=
  (finite_record_not_rejected _ a b (by simp [JSVal.get, List.lookup])
    (by simp [JSVal.get, List.lookup]) (by simp [JSVal.get, List.lookup])).1

theorem panToRejected_sample (a b : ℚ) :
    panToRejected (.obj [("lat", .num (.fin a)), ("lng", .num (.fin b))]) = false :=
  (finite_record_not_rejected _ a b (by simp [JSVal.get, List.lookup])
    (by simp [JSVal.get, List.lookup]) (by simp [JSVal.get, List.lookup])).2

theorem isValidRecord_sample (a b : ℚ) (ha : a ≠ 0) (hb : b ≠ 0) (ha90 : |a| ≤ 90)
    (hb180 : |b| ≤ 180) :
    isValidRecord (.obj [("lat", .num (.fin a)), ("lng", .num (.fin b))]) a b :=
  ⟨by simp [JSVal.get, List.lookup], by simp [JSVal.get, List.lookup], ha, hb, ha90, hb180,
    by simp [JSVal.get, List.lookup]⟩

theorem isValidRecord_101 :
    isValidRecord (.obj [("lat", .num (.fin 28.9863)), ("lng", .num (.fin 77.0195))])
      28.9863 77.0195 :=
  isValidRecord_sample _ _ (by norm_num) (by norm_num)
    (by rw [abs_of_pos (by norm_num)]; norm_num) (by rw [abs_of_pos (by norm_num)]; norm_num)

theorem hasCoordinates_101 :
    hasCoordinates (.obj [("lat", .num (.fin 28.9863)), ("lng", .num (.fin 77.0195))]) = true :=
  hasCoordinates_sample _ _ (by norm_num) (by norm_num)

theorem hasCoordinates_555 :
    hasCoordinates (.obj [("lat", .num (.fin 28.98)), ("lng", .num (.fin 77.015))]) = true :=
  hasCoordinates_sample _ _ (by norm_num) (by norm_num)

/-! ## C1: round trip through the shared store -/

/-- C1: for every finite pair of coordinates, after a location fix is published
(by the watch callback or by the initial-fix callback) the stored entry under
`bus_location_101` is the serialised pair, and the subscriber's read of
identifier 101 returns an object with exactly the two fields `lat` and `lng`,
whose values are numbers strictly equal (`===`) to the published ones, and
identical to them whenever the published number is not negative zero. -/
theorem publish_read_roundtrip (d : Driver) (latitude longitude : JSNum)
    (hlat : latitude.isFinite = true) (hlng : longitude.isFinite = true) :
    (onWatchFix d latitude longitude).store.getItem "bus_location_101"
      = some (stringifyLocation latitude longitude)
    ∧ (onInitialFix d latitude longitude).store.getItem "bus_location_101"
      = some (stringifyLocation latitude longitude)
    ∧ (∃ lat lng : JSNum,
      readLocation (onWatchFix d latitude longitude).store "101"
        = some (.obj [("lat", .num lat), ("lng", .num lng)])
      ∧ lat.strictEq latitude = true ∧ lng.strictEq longitude = true
      ∧ (∀ q, latitude = .fin q → lat = .fin q)
      ∧ (∀ q, longitude = .fin q → lng = .fin q))
    ∧ (∃ lat lng : JSNum,
      readLocation (onInitialFix d latitude longitude).store "101"
        = some (.obj [("lat", .num lat), ("lng", .num lng)])
      ∧ lat.strictEq latitude = true ∧ lng.strictEq longitude = true
      ∧ (∀ q, latitude = .fin q → lat = .fin q)
      ∧ (∀ q, longitude = .fin q → lng = .fin q)) := by
  rw [onWatchFix_store, onInitialFix_store d latitude longitude hlat hlng]
  exact ⟨getItem_setItem_same _ _ _, getItem_setItem_same _ _ _,
    readLocation_published d.store latitude longitude hlat hlng,
    readLocation_published d.store latitude longitude hlat hlng⟩

/-- Witness for C1 at the fix (28.9863, 77.0195). -/
theorem publish_read_roundtrip_witness :
    (∃ lat lng : JSNum,
      readLocation (onWatchFix sampleDriver (.fin 28.9863) (.fin 77.0195)).store "101"
        = some (.obj [("lat", .num lat), ("lng", .num lng)])
      ∧ lat.strictEq (.fin 28.9863) = true ∧ lng.strictEq (.fin 77.0195) = true
      ∧ (∀ q, JSNum.fin 28.9863 = .fin q → lat = .fin q)
      ∧ (∀ q, JSNum.fin 77.0195 = .fin q → lng = .fin q))
    ∧ (∃ lat lng : JSNum,
      readLocation (onInitialFix sampleDriver (.fin 28.9863) (.fin 77.0195)).store "101"
        = some (.obj [("lat", .num lat), ("lng", .num lng)])
      ∧ lat.strictEq (.fin 28.9863) = true ∧ lng.strictEq (.fin 77.0195) = true
      ∧ (∀ q, JSNum.fin 28.9863 = .fin q → lat = .fin q)
      ∧ (∀ q, JSNum.fin 77.0195 = .fin q → lng = .fin q)) :=
  (publish_read_roundtrip sampleDriver (.fin 28.9863) (.fin 77.0195) rfl rfl).2.2

/-! ## C2: stopping removes the record -/

theorem stopSharing_store (d : Driver) :
    (stopSharing d).store
      = (d.store.setItem "sharing_status" (.text "off")).removeItem "bus_location_101" := by
  unfold stopSharing
  rw [locationKey_101, statusKey_literal]
  cases hw : d.watchId with
  | none => rfl
  | some h => by_cases h0 : h = 0 <;> simp [h0]

/-- C2: for every driver state and every sequence of events before it
(publishes included), right after `stopSharing` the store has no entry under
`bus_location_101`, the subscriber's read of identifier 101 gives `null`
(absent), and `sharing_status` holds `off`. -/
theorem stopSharing_clears_record (d : Driver) (history : List DriverEvent) :
    (stopSharing (d.run history)).store.getItem "bus_location_101" = none
    ∧ readLocation (stopSharing (d.run history)).store "101" = some .null
    ∧ (stopSharing (d.run history)).store.getItem "sharing_status" = some (.text "off") := by
  rw [stopSharing_store]
  refine ⟨getItem_removeItem_same _ _, ?_, ?_⟩
  · rw [readLocation, locationKey_literal, getItem_removeItem_same]
    rfl
  · rw [getItem_removeItem_other _ _ _ (by decide), getItem_setItem_same]

/-! ## C3: restart on reload -/

/-- C3: when `setupDriverPage` runs with the persisted `sharing_status` equal to
`on`, it calls `startSharing` with no user action, and if the location
capability is present a location watch is installed (its handle kept in
`watchId`), a first fix is requested and `sharing_status` is still `on`; when
the persisted value is anything else (`off`, absent), nothing is started and
the store is left as it was. -/
theorem setupDriverPage_restart (store : Store) (hasGeolocation : Bool) (firstWatch : Nat)
    (statusEl : String) (startBtnHidden stopBtnHidden : Bool) :
    (store.getItem "sharing_status" = some (.text "on") →
      setupDriverPage store hasGeolocation firstWatch statusEl startBtnHidden stopBtnHidden
        = startSharing
            (driverPageLoaded store hasGeolocation firstWatch statusEl startBtnHidden stopBtnHidden)
      ∧ (hasGeolocation = true →
        (setupDriverPage store hasGeolocation firstWatch statusEl startBtnHidden
            stopBtnHidden).watches = [firstWatch]
        ∧ (setupDriverPage store hasGeolocation firstWatch statusEl startBtnHidden
            stopBtnHidden).watchId = some firstWatch
        ∧ (setupDriverPage store hasGeolocation firstWatch statusEl startBtnHidden
            stopBtnHidden).pendingFixes = 1
        ∧ (setupDriverPage store hasGeolocation firstWatch statusEl startBtnHidden
            stopBtnHidden).statusEl = "Sharing is ON"
        ∧ (setupDriverPage store hasGeolocation firstWatch statusEl startBtnHidden
            stopBtnHidden).store.getItem "sharing_status" = some (.text "on")))
    ∧ (store.getItem "sharing_status" ≠ some (.text "on") →
      setupDriverPage store hasGeolocation firstWatch statusEl startBtnHidden stopBtnHidden
        = driverPageLoaded store hasGeolocation firstWatch statusEl startBtnHidden stopBtnHidden
      ∧ (setupDriverPage store hasGeolocation firstWatch statusEl startBtnHidden
          stopBtnHidden).store = store
      ∧ (setupDriverPage store hasGeolocation firstWatch statusEl startBtnHidden
          stopBtnHidden).watches = []
      ∧ (setupDriverPage store hasGeolocation firstWatch statusEl startBtnHidden
          stopBtnHidden).watchId = none
      ∧ (setupDriverPage store hasGeolocation firstWatch statusEl startBtnHidden
          stopBtnHidden).pendingFixes = 0) := by
  constructor
  · intro hon
    have hkey : (driverPageLoaded store hasGeolocation firstWatch statusEl startBtnHidden
        stopBtnHidden).store.getItem SHARING_STATUS_KEY = some (.text "on") := hon
    have hrun : setupDriverPage store hasGeolocation firstWatch statusEl startBtnHidden
        stopBtnHidden
        = startSharing (driverPageLoaded store hasGeolocation firstWatch statusEl
            startBtnHidden stopBtnHidden) := by
      simp [setupDriverPage, hkey, Stored.isText]
    refine ⟨hrun, ?_⟩
    intro hgeo
    subst hgeo
    rw [hrun]
    refine ⟨rfl, rfl, rfl, rfl, ?_⟩
    simp [startSharing, driverPageLoaded, statusKey_literal, getItem_setItem_same]
  · intro hoff
    have hkey : Stored.isText ((driverPageLoaded store hasGeolocation firstWatch statusEl
        startBtnHidden stopBtnHidden).store.getItem SHARING_STATUS_KEY) "on" = false := by
      change Stored.isText (store.getItem "sharing_status") "on" = false
      cases hv : store.getItem "sharing_status" with
      | none => rfl
      | some v =>
        cases v with
        | json _ => rfl
        | text t =>
          have : t ≠ "on" := fun ht => hoff (by rw [hv, ht])
          simp [Stored.isText, this]
    have hrun : setupDriverPage store hasGeolocation firstWatch statusEl startBtnHidden
        stopBtnHidden
        = driverPageLoaded store hasGeolocation firstWatch statusEl startBtnHidden
            stopBtnHidden := by
      simp [setupDriverPage, hkey]
    rw [hrun]
    exact ⟨rfl, rfl, rfl, rfl, rfl⟩

/-- Witness for C3: a store holding `on` with location capability, and the
empty store. -/
theorem setupDriverPage_restart_witness :
    ((setupDriverPage (Store.empty.setItem "sharing_status" (.text "on")) true 1
        "Sharing is OFF" false true).watches = [1]
      ∧ (setupDriverPage (Store.empty.setItem "sharing_status" (.text "on")) true 1
        "Sharing is OFF" false true).watchId = some 1
      ∧ (setupDriverPage (Store.empty.setItem "sharing_status" (.text "on")) true 1
        "Sharing is OFF" false true).pendingFixes = 1
      ∧ (setupDriverPage (Store.empty.setItem "sharing_status" (.text "on")) true 1
        "Sharing is OFF" false true).statusEl = "Sharing is ON"
      ∧ (setupDriverPage (Store.empty.setItem "sharing_status" (.text "on")) true 1
        "Sharing is OFF" false true).store.getItem "sharing_status" = some (.text "on"))
    ∧ ((setupDriverPage Store.empty true 1 "Sharing is OFF" false true).store = Store.empty
      ∧ (setupDriverPage Store.empty true 1 "Sharing is OFF" false true).watches = []) :=
  ⟨((setupDriverPage_restart (Store.empty.setItem "sharing_status" (.text "on")) true 1
      "Sharing is OFF" false true).1 (getItem_setItem_same _ _ _)).2 rfl,
   (((setupDriverPage_restart Store.empty true 1 "Sharing is OFF" false true).2
      (by simp [Store.getItem, Store.empty])).2).1,
   (((setupDriverPage_restart Store.empty true 1 "Sharing is OFF" false true).2
      (by simp [Store.getItem, Store.empty])).2).2.1⟩

/-! ## C4: a record on the equator is not shown as live -/

theorem equatorStore_read :
    readLocation equatorStore "101"
      = some (.obj [("lat", .num (.fin 0)), ("lng", .num (.fin 77.0195))]) := by
  rw [equatorStore, onWatchFix_store, readLocation, locationKey_literal, getItem_setItem_same]
  rfl

/-- C4, at the failing input: the driver publishes the fix (0, 77.0195), so
the store holds a record for 101 with both coordinates present and numeric;
the passenger searches 101; the poll nevertheless sets the status to
`Location not available` and the map indicator stays hidden at its initial
position, because the latitude `0` is falsy in the test of line 152. -/
theorem equator_record_not_live :
    readLocation equatorStore "101"
      = some (.obj [("lat", .num (.fin 0)), ("lng", .num (.fin 77.0195))])
    ∧ (handleSearch (samplePassenger equatorStore) "101" (1 / 2)).state.currentBusNumber
      = some "101"
    ∧ (handleSearch (samplePassenger equatorStore) "101" (1 / 2)).state.busStatusEl
      = "Location not available"
    ∧ (handleSearch (samplePassenger equatorStore) "101" (1 / 2)).state.markerOnMap = false
    ∧ (handleSearch (samplePassenger equatorStore) "101" (1 / 2)).state.markerLatLng
      = (.num (.fin 0), .num (.fin 0)) := by
  refine ⟨equatorStore_read, ?_⟩
  have hpoll := updateBusLocation_notLive
    (clearPreviousInterval
      { samplePassenger equatorStore with
        currentBusNumber := some (jsTrim "101"), busNumberEl := jsTrim "101" })
    "101" (1 / 2) _ (by rw [jsTrim_101, clearPreviousInterval_fresh _ rfl]) (by decide)
    (by rw [clearPreviousInterval_fresh _ rfl]; exact equatorStore_read)
    (by simp [hasCoordinates, JSVal.truthy, JSVal.get, JSNum.truthy, List.lookup])
  rw [handleSearch_nonempty _ _ _ (by decide), hpoll]
  simp [Outcome.state, clearPreviousInterval_fresh, samplePassenger, setupPassengerPage,
    jsTrim_101]

/-- What the poll does for a record whose coordinates are finite non-zero
numbers: the status is `Live`, the map indicator is placed at the coordinates
of the record and is visible. -/
theorem poll_live_record (s : Passenger) (busNumber : String) (r : ℚ) (a b : ℚ)
    (hcur : s.currentBusNumber = some busNumber) (hne : busNumber ≠ "")
    (hread : readLocation s.store busNumber
      = some (.obj [("lat", .num (.fin a)), ("lng", .num (.fin b))]))
    (ha : a ≠ 0) (hb : b ≠ 0) :
    (updateBusLocation s r).isReturned = true
    ∧ (updateBusLocation s r).state.busStatusEl = "Live"
    ∧ (updateBusLocation s r).state.markerLatLng = (.num (.fin a), .num (.fin b))
    ∧ (updateBusLocation s r).state.markerOnMap = true := by
  rw [updateBusLocation_live s busNumber r _ hcur hne hread (hasCoordinates_sample a b ha hb)
    (latLngRejected_sample a b) (panToRejected_sample a b)]
  cases MOCK_BUS_DATA busNumber <;>
    simp [Outcome.state, Outcome.isReturned, JSVal.get, List.lookup]

/-! ## C5: absent or malformed records -/

theorem hasCoordinates_of_lacking (v : JSVal)
    (h : v.get "lat" = .undefined ∨ v.get "lng" = .undefined) : hasCoordinates v = false := by
  rcases h with h | h <;> simp [hasCoordinates, h, JSVal.truthy]

/-- C5: for every searched (non-empty) identifier whose entry is absent from
the store, or is a serialised value lacking `lat` or lacking `lng`, the poll
returns normally, sets the status to `Location not available`, sets the seat
count, next stop and ETA to `--`, and leaves the map indicator hidden; nothing
else on the page changes. -/
theorem poll_absent_or_malformed (s : Passenger) (busNumber : String) (r : ℚ)
    (hcur : s.currentBusNumber = some busNumber) (hne : busNumber ≠ "")
    (hrec : s.store.getItem ("bus_location_" ++ busNumber) = none
      ∨ ∃ v, s.store.getItem ("bus_location_" ++ busNumber) = some (.json v)
          ∧ (v.get "lat" = .undefined ∨ v.get "lng" = .undefined)) :
    updateBusLocation s r = .returned
        { s with
          busStatusEl := "Location not available"
          availableSeatsEl := "--"
          nextStopEl := "--"
          etaEl := "--"
          markerOnMap := false }
    ∧ (updateBusLocation s r).state.busStatusEl = "Location not available"
    ∧ (updateBusLocation s r).state.availableSeatsEl = "--"
    ∧ (updateBusLocation s r).state.nextStopEl = "--"
    ∧ (updateBusLocation s r).state.etaEl = "--"
    ∧ (updateBusLocation s r).state.markerOnMap = false := by
  have hstep : updateBusLocation s r = .returned
        { s with
          busStatusEl := "Location not available"
          availableSeatsEl := "--"
          nextStopEl := "--"
          etaEl := "--"
          markerOnMap := false } := by
    rcases hrec with habs | ⟨v, hv, hlack⟩
    · have hread : readLocation s.store busNumber = some .null := by
        change jsonParse (s.store.getItem ("bus_location_" ++ busNumber)) = _
        rw [habs]; rfl
      exact updateBusLocation_notLive s busNumber r .null hcur hne hread
        (by simp [hasCoordinates, JSVal.truthy])
    · have hread : readLocation s.store busNumber = some v := by
        change jsonParse (s.store.getItem ("bus_location_" ++ busNumber)) = _
        rw [hv]; rfl
      exact updateBusLocation_notLive s busNumber r v hcur hne hread
        (hasCoordinates_of_lacking v hlack)
  rw [hstep]
  exact ⟨rfl, rfl, rfl, rfl, rfl, rfl⟩

/-- Witness for C5: identifier 999 polled over the empty store, and identifier
101 polled over a stored object that has `lat` but no `lng`. -/
theorem poll_absent_or_malformed_witness :
    ((updateBusLocation absentPage 0).state.busStatusEl = "Location not available"
      ∧ (updateBusLocation absentPage 0).state.etaEl = "--")
    ∧ ((updateBusLocation malformedPage 0).state.busStatusEl = "Location not available"
      ∧ (updateBusLocation malformedPage 0).state.markerOnMap = false) :=
  have habsent := poll_absent_or_malformed absentPage "999" 0 rfl (by decide) (Or.inl rfl)
  have hmalformed := poll_absent_or_malformed malformedPage "101" 0 rfl (by decide)
    (Or.inr ⟨_, getItem_setItem_same _ _ _, Or.inr (by simp [JSVal.get, List.lookup])⟩)
  ⟨⟨habsent.2.1, habsent.2.2.2.2.1⟩, ⟨hmalformed.2.1, hmalformed.2.2.2.2.2⟩⟩

/-! ## C6: at most one active poll timer -/

theorem timersTracked_setup (store : Store) (firstHandle : Nat)
    (busNumberEl busStatusEl availableSeatsEl nextStopEl etaEl : String)
    (hpos : 0 < firstHandle) :
    (setupPassengerPage store firstHandle busNumberEl busStatusEl availableSeatsEl nextStopEl
      etaEl).TimersTracked :=
  ⟨hpos, rfl⟩

theorem timersTracked_of_frame (s t : Passenger) (ht : t.timers = s.timers)
    (hu : t.updateInterval = s.updateInterval) (h : s.TimersTracked) : t.TimersTracked := by
  unfold Passenger.TimersTracked at *
  rw [ht, hu]
  exact h

theorem timersTracked_poll (s : Passenger) (r : ℚ) (h : s.TimersTracked) :
    (updateBusLocation s r).state.TimersTracked :=
  timersTracked_of_frame s _ (updateBusLocation_frame s r).2.1
    (updateBusLocation_frame s r).2.2.2.1 h

/-- After line 189 no timer is active, whatever the outcome of the poll. -/
theorem clearPreviousInterval_active (s : Passenger) (h : s.TimersTracked) :
    (clearPreviousInterval s).timers.active = []
    ∧ (clearPreviousInterval s).timers.next = s.timers.next
    ∧ (clearPreviousInterval s).updateInterval = s.updateInterval := by
  obtain ⟨_, hm⟩ := h
  cases hu : s.updateInterval with
  | none =>
    rw [hu] at hm
    simp [clearPreviousInterval, hu, hm]
  | some k =>
    rw [hu] at hm
    obtain ⟨hk, _, hact⟩ := hm
    have hk0 : k ≠ 0 := by omega
    rcases hact with hact | hact <;>
      simp [clearPreviousInterval, hu, hk0, Timers.clearInterval, hact]

/-- The effect of a search with a non-empty identifier on the timers. -/
theorem handleSearch_timers (s : Passenger) (value : String) (r : ℚ)
    (hne : jsTrim value ≠ "") (h : s.TimersTracked) :
    (handleSearch s value r).state.currentBusNumber = some (jsTrim value)
    ∧ (handleSearch s value r).state.store = s.store
    ∧ (handleSearch s value r).state.TimersTracked
    ∧ (pollCompletes s.store (jsTrim value) = true →
        (handleSearch s value r).isReturned = true
        ∧ (handleSearch s value r).state.timers.active = [s.timers.next]
        ∧ (handleSearch s value r).state.updateInterval = some s.timers.next
        ∧ (handleSearch s value r).state.timers.next = s.timers.next + 1) := by
  have hclear := clearPreviousInterval_active
    { s with currentBusNumber := some (jsTrim value), busNumberEl := jsTrim value } h
  have hcf := clearPreviousInterval_frame
    { s with currentBusNumber := some (jsTrim value), busNumberEl := jsTrim value }
  have hpf := updateBusLocation_frame
    (clearPreviousInterval
      { s with currentBusNumber := some (jsTrim value), busNumberEl := jsTrim value }) r
  rw [handleSearch_nonempty s value r hne]
  cases hout : updateBusLocation
      (clearPreviousInterval
        { s with currentBusNumber := some (jsTrim value), busNumberEl := jsTrim value }) r with
  | threw s3 =>
    rw [hout] at hpf
    simp only [Outcome.state] at hpf ⊢
    refine ⟨by rw [hpf.2.2.1, hcf.2.1], by rw [hpf.1, hcf.1], ?_, ?_⟩
    · refine ⟨by rw [hpf.2.1, hclear.2.1]; exact h.1, ?_⟩
      rw [hpf.2.2.2.1, hclear.2.2]
      have hm := h.2
      change match s.updateInterval with
        | none => s3.timers.active = []
        | some k =>
          0 < k ∧ k < s3.timers.next ∧ (s3.timers.active = [k] ∨ s3.timers.active = [])
      rw [hpf.2.1, hclear.1, hclear.2.1]
      cases hu : s.updateInterval with
      | none => rfl
      | some k =>
        rw [hu] at hm
        exact ⟨hm.1, hm.2.1, Or.inr rfl⟩
    · intro hcomplete
      exfalso
      have hcur : (clearPreviousInterval
          { s with currentBusNumber := some (jsTrim value), busNumberEl := jsTrim value }
          ).currentBusNumber = some (jsTrim value) := hcf.2.1
      cases hr : readLocation s.store (jsTrim value) with
      | none => simp [pollCompletes, hr] at hcomplete
      | some v =>
        have hr' : readLocation (clearPreviousInterval
            { s with currentBusNumber := some (jsTrim value), busNumberEl := jsTrim value }
            ).store (jsTrim value) = some v := by rw [hcf.1]; exact hr
        cases hv : hasCoordinates v with
        | false =>
          rw [updateBusLocation_notLive _ _ r v hcur hne hr' hv] at hout
          cases hout
        | true =>
          have hboth : latLngRejected v = false ∧ panToRejected v = false := by
            simpa [pollCompletes, hr, hv] using hcomplete
          rw [updateBusLocation_live _ _ r v hcur hne hr' hv hboth.1 hboth.2] at hout
          cases hm : MOCK_BUS_DATA (jsTrim value) <;> rw [hm] at hout <;> cases hout
  | returned s3 =>
    rw [hout] at hpf
    simp only [Outcome.state, Outcome.isReturned] at hpf ⊢
    have hnext : s3.timers.next = s.timers.next := by rw [hpf.2.1, hclear.2.1]
    have hact : s3.timers.active = [] := by rw [hpf.2.1, hclear.1]
    refine ⟨by rw [hpf.2.2.1, hcf.2.1], by rw [hpf.1, hcf.1], ?_, ?_⟩
    · refine ⟨Nat.succ_pos _, ?_⟩
      change 0 < s3.timers.next ∧ s3.timers.next < s3.timers.next + 1
        ∧ (s3.timers.next :: s3.timers.active = [s3.timers.next]
          ∨ s3.timers.next :: s3.timers.active = [])
      rw [hact, hnext]
      exact ⟨h.1, Nat.lt_succ_self _, Or.inl rfl⟩
    · intro _
      refine ⟨trivial, ?_, ?_, ?_⟩
      · change s3.timers.next :: s3.timers.active = [s.timers.next]
        rw [hact, hnext]
      · change some s3.timers.next = some s.timers.next
        rw [hnext]
      · change s3.timers.next + 1 = s.timers.next + 1
        rw [hnext]

theorem timersTracked_step (s : Passenger) (e : PassengerEvent) (h : s.TimersTracked) :
    (s.step e).TimersTracked := by
  cases e with
  | search value r =>
    by_cases hne : jsTrim value = ""
    · simp only [Passenger.step]
      rw [handleSearch_blank s value r hne]
      exact h
    · exact (handleSearch_timers s value r hne h).2.2.1
  | tick k r =>
    simp only [Passenger.step]
    split_ifs
    · exact timersTracked_poll s r h
    · exact h
  | storeSet key value => exact h
  | storeRemove key => exact h

theorem timersTracked_run (events : List PassengerEvent) (s : Passenger)
    (h : s.TimersTracked) : (s.run events).TimersTracked := by
  induction events generalizing s with
  | nil => exact h
  | cons e rest ih => exact ih (s.step e) (timersTracked_step s e h)

theorem timersTracked_length (s : Passenger) (h : s.TimersTracked) :
    s.timers.active.length ≤ 1 := by
  obtain ⟨_, hm⟩ := h
  cases hu : s.updateInterval with
  | none => rw [hu] at hm; simp [hm]
  | some k =>
    rw [hu] at hm
    rcases hm.2.2 with ha | ha <;> simp [ha]

theorem timersTracked_reachable (s : Passenger) (h : s.Reachable) : s.TimersTracked := by
  obtain ⟨store, firstHandle, t1, t2, t3, t4, t5, events, hpos, rfl⟩ := h
  exact timersTracked_run events _ (timersTracked_setup store firstHandle t1 t2 t3 t4 t5 hpos)

theorem samplePassenger_reachable (store : Store) : (samplePassenger store).Reachable :=
  ⟨store, 1, "", "", "--", "--", "--", [], Nat.one_pos, rfl⟩

theorem liveStore_read_102 : readLocation liveStore "102" = some .null := by
  have hkey : BUS_LOCATION_PREFIX ++ "102" = "bus_location_102" := by decide
  rw [liveStore, onWatchFix_store, readLocation, hkey,
    getItem_setItem_other _ _ _ _ (by decide)]
  rfl

theorem pollCompletes_of_plain (store : Store) (busNumber : String)
    (h : holdsPlainEntry store busNumber) : pollCompletes store busNumber = true := by
  obtain ⟨v, hread, hcase⟩ := h
  rcases hcase with hnot | ⟨a, b, hrecord⟩
  · simp [pollCompletes, hread, hnot]
  · obtain ⟨_, hok, hpan⟩ := valid_record_accepted v a b hrecord
    simp [pollCompletes, hread, hok, hpan]

theorem holdsPlainEntry_liveStore_101 : holdsPlainEntry liveStore "101" :=
  ⟨_, liveStore_read, Or.inr ⟨28.9863, 77.0195, isValidRecord_101⟩⟩

theorem holdsPlainEntry_liveStore_102 : holdsPlainEntry liveStore "102" :=
  ⟨_, liveStore_read_102, Or.inl (by simp [hasCoordinates, JSVal.truthy])⟩

theorem brokenTextStore_read_101 :
    readLocation brokenTextStore "101"
      = some (.obj [("lat", .num (.fin 28.9863)), ("lng", .num (.fin 77.0195))]) := by
  rw [← liveStore_read, brokenTextStore, readLocation, readLocation, locationKey_literal,
    getItem_setItem_other _ _ _ _ (by decide)]

theorem brokenTextStore_read_102 : readLocation brokenTextStore "102" = none := by
  have hkey : BUS_LOCATION_PREFIX ++ "102" = "bus_location_102" := by decide
  rw [brokenTextStore, readLocation, hkey, getItem_setItem_same]
  rfl

theorem brokenRecordStore_read_101 :
    readLocation brokenRecordStore "101"
      = some (.obj [("lat", .num (.fin 28.9863)), ("lng", .num (.fin 77.0195))]) := by
  rw [← liveStore_read, brokenRecordStore, readLocation, readLocation, locationKey_literal,
    getItem_setItem_other _ _ _ _ (by decide)]

theorem brokenRecordStore_read_102 :
    readLocation brokenRecordStore "102"
      = some (.obj [("lat", .str "abc"), ("lng", .str "def")]) := by
  have hkey : BUS_LOCATION_PREFIX ++ "102" = "bus_location_102" := by decide
  rw [brokenRecordStore, readLocation, hkey, getItem_setItem_same]
  rfl

theorem hasCoordinates_text_record :
    hasCoordinates (.obj [("lat", .str "abc"), ("lng", .str "def")]) = true := by
  simp [hasCoordinates, JSVal.truthy, JSVal.get, List.lookup]

theorem latLngRejected_text_record :
    latLngRejected (.obj [("lat", .str "abc"), ("lng", .str "def")]) = true := by
  have h : stringToNumberKind "abc" = .nan := by decide
  simp [latLngRejected, JSVal.get, List.lookup, JSVal.notANumber, JSVal.toNumberKind, h]

theorem jsTrim_102 : jsTrim "102" = "102" := by decide

theorem searched_over (store : Store)
    (hread : readLocation store "101"
      = some (.obj [("lat", .num (.fin 28.9863)), ("lng", .num (.fin 77.0195))])) :
    (handleSearch (samplePassenger store) "101" 0).state =
      { samplePassenger store with
        timers := { active := [1], next := 2 }
        currentBusNumber := some "101"
        updateInterval := some 1
        busNumberEl := "101"
        busStatusEl := "Live"
        availableSeatsEl := "25"
        nextStopEl := "Mordern velly ,kharar"
        etaEl := "1 mins"
        markerLatLng := (.num (.fin 28.9863), .num (.fin 77.0195))
        mapCenter := (.num (.fin 28.9863), .num (.fin 77.0195))
        markerOnMap := true } := by
  simp [handleSearch, jsTrim_101, clearPreviousInterval, samplePassenger,
    setupPassengerPage, updateBusLocation, hread, hasCoordinates_101, latLngRejected_sample,
    panToRejected_sample,
    mock_101_entry, Timers.setInterval, Outcome.state, etaText_zero, JSVal.get, List.lookup]
  rfl

theorem second_search_throws (store : Store)
    (hread : readLocation store "101"
      = some (.obj [("lat", .num (.fin 28.9863)), ("lng", .num (.fin 77.0195))]))
    (hthrows : updateBusLocation
        { samplePassenger store with
          timers := { active := [], next := 2 }
          currentBusNumber := some "102"
          updateInterval := some 1
          busNumberEl := "102"
          busStatusEl := "Live"
          availableSeatsEl := "25"
          nextStopEl := "Mordern velly ,kharar"
          etaEl := "1 mins"
          markerLatLng := (.num (.fin 28.9863), .num (.fin 77.0195))
          mapCenter := (.num (.fin 28.9863), .num (.fin 77.0195))
          markerOnMap := true } 0
      = .threw
        { samplePassenger store with
          timers := { active := [], next := 2 }
          currentBusNumber := some "102"
          updateInterval := some 1
          busNumberEl := "102"
          busStatusEl := "Live"
          availableSeatsEl := "25"
          nextStopEl := "Mordern velly ,kharar"
          etaEl := "1 mins"
          markerLatLng := (.num (.fin 28.9863), .num (.fin 77.0195))
          mapCenter := (.num (.fin 28.9863), .num (.fin 77.0195))
          markerOnMap := true }) :
    (handleSearch (samplePassenger store) "101" 0).state.timers.active = [1]
    ∧ (handleSearch (handleSearch (samplePassenger store) "101" 0).state "102" 0).isReturned
      = false
    ∧ (handleSearch (handleSearch (samplePassenger store) "101" 0).state "102"
        0).state.currentBusNumber = some "102"
    ∧ (handleSearch (handleSearch (samplePassenger store) "101" 0).state "102"
        0).state.busStatusEl = "Live"
    ∧ (handleSearch (handleSearch (samplePassenger store) "101" 0).state "102"
        0).state.timers.active = [] := by
  rw [searched_over store hread]
  refine ⟨rfl, ?_⟩
  rw [handleSearch_nonempty _ _ _ (by decide)]
  simp only [jsTrim_102, clearPreviousInterval, Timers.clearInterval]
  simp only [ne_eq, one_ne_zero, not_false_eq_true, if_true, List.filter, decide_not,
    decide_True, Bool.not_true]
  rw [hthrows]
  exact ⟨rfl, rfl, rfl, rfl⟩

/-- C6 refuted as stated: on a freshly loaded page, 101 is searched and then
102.  When the entry stored for 102 is not JSON text, or is a record whose
coordinates are strings that are not numbers, the immediate poll of the second
search throws after line 189 has cleared the timer of the first search and
before line 193 sets a new one: the identifier is 102, the status still shows
`Live`, and no timer is active. -/
theorem search_throw_leaves_no_timer :
    ((handleSearch (samplePassenger brokenTextStore) "101" 0).state.timers.active = [1]
      ∧ (handleSearch (handleSearch (samplePassenger brokenTextStore) "101" 0).state "102"
          0).isReturned = false
      ∧ (handleSearch (handleSearch (samplePassenger brokenTextStore) "101" 0).state "102"
          0).state.currentBusNumber = some "102"
      ∧ (handleSearch (handleSearch (samplePassenger brokenTextStore) "101" 0).state "102"
          0).state.busStatusEl = "Live"
      ∧ (handleSearch (handleSearch (samplePassenger brokenTextStore) "101" 0).state "102"
          0).state.timers.active = [])
    ∧ ((handleSearch (samplePassenger brokenRecordStore) "101" 0).state.timers.active = [1]
      ∧ (handleSearch (handleSearch (samplePassenger brokenRecordStore) "101" 0).state "102"
          0).isReturned = false
      ∧ (handleSearch (handleSearch (samplePassenger brokenRecordStore) "101" 0).state "102"
          0).state.currentBusNumber = some "102"
      ∧ (handleSearch (handleSearch (samplePassenger brokenRecordStore) "101" 0).state "102"
          0).state.busStatusEl = "Live"
      ∧ (handleSearch (handleSearch (samplePassenger brokenRecordStore) "101" 0).state "102"
          0).state.timers.active = []) := by
  constructor
  · exact second_search_throws brokenTextStore brokenTextStore_read_101
      (updateBusLocation_threw _ "102" 0 rfl (by decide) brokenTextStore_read_102)
  · exact second_search_throws brokenRecordStore brokenRecordStore_read_101
      (updateBusLocation_rejected _ "102" 0 _ rfl (by decide) brokenRecordStore_read_102
        hasCoordinates_text_record latLngRejected_text_record)

/-- C6 as amended: in every state the passenger page can reach (timer handles
being non-zero), at most one poll timer is active.  Moreover, for inputs `a`
and `b` whose trimmed identifiers are non-empty and whose store entries are
each absent, or JSON text in which `lat` or `lng` is missing or falsy, or a
location record with valid coordinates, after `handleSearch` on `a` and then
on `b` both calls have returned, the timer created by the first search is no
longer active and does not fire, exactly one timer is active, it is the one
kept in `updateInterval`, and its ticks poll the identifier of `b`. -/
theorem one_active_poll (s : Passenger) (hs : s.Reachable) :
    s.timers.active.length ≤ 1
    ∧ ∀ (a b : String) (ra rb : ℚ), jsTrim a ≠ "" → jsTrim b ≠ "" →
        holdsPlainEntry s.store (jsTrim a) → holdsPlainEntry s.store (jsTrim b) →
        (handleSearch s a ra).isReturned = true
        ∧ (handleSearch s a ra).state.timers.active = [s.timers.next]
        ∧ (handleSearch (handleSearch s a ra).state b rb).isReturned = true
        ∧ (handleSearch (handleSearch s a ra).state b rb).state.timers.active
          = [s.timers.next + 1]
        ∧ (handleSearch (handleSearch s a ra).state b rb).state.timers.active.length = 1
        ∧ s.timers.next ∉ (handleSearch (handleSearch s a ra).state b rb).state.timers.active
        ∧ (handleSearch (handleSearch s a ra).state b rb).state.updateInterval
          = some (s.timers.next + 1)
        ∧ (handleSearch (handleSearch s a ra).state b rb).state.currentBusNumber
          = some (jsTrim b)
        ∧ (∀ r, (handleSearch (handleSearch s a ra).state b rb).state.step
              (.tick (s.timers.next + 1) r)
            = (updateBusLocation (handleSearch (handleSearch s a ra).state b rb).state r).state)
        ∧ (∀ r, (handleSearch (handleSearch s a ra).state b rb).state.step
              (.tick s.timers.next r)
            = (handleSearch (handleSearch s a ra).state b rb).state) := by
  have hinv := timersTracked_reachable s hs
  refine ⟨timersTracked_length s hinv, ?_⟩
  intro a b ra rb ha hb hra hrb
  have hA := handleSearch_timers s a ra ha hinv
  obtain ⟨_, hstoreA, hinvA, hA4⟩ := hA
  obtain ⟨hretA, hactA, _, hnextA⟩ := hA4 (pollCompletes_of_plain _ _ hra)
  have hB := handleSearch_timers (handleSearch s a ra).state b rb hb hinvA
  obtain ⟨hcurB, _, _, hB4⟩ := hB
  obtain ⟨hretB, hactB, hintB, _⟩ :=
    hB4 (by rw [hstoreA]; exact pollCompletes_of_plain _ _ hrb)
  rw [hnextA] at hactB hintB
  refine ⟨hretA, hactA, hretB, hactB, by rw [hactB]; rfl, by rw [hactB]; simp, hintB, hcurB,
    ?_, ?_⟩
  · intro r
    simp only [Passenger.step]
    rw [if_pos (by rw [hactB]; simp)]
  · intro r
    simp only [Passenger.step]
    rw [if_neg (by rw [hactB]; simp)]

/-- Witness for C6 as amended: 101 and then 102 searched on a freshly loaded
page over the store holding a record for 101 and none for 102. -/
theorem one_active_poll_witness :
    (handleSearch searchedPage "102" 0).state.timers.active = [2]
    ∧ (handleSearch searchedPage "102" 0).state.timers.active.length = 1
    ∧ 1 ∉ (handleSearch searchedPage "102" 0).state.timers.active
    ∧ (handleSearch searchedPage "102" 0).state.currentBusNumber = some "102" :=
  have h := (one_active_poll (samplePassenger liveStore) (samplePassenger_reachable liveStore)).2
    "101" "102" 0 0 (by decide) (by decide)
    (by rw [jsTrim_101]; exact holdsPlainEntry_liveStore_101)
    (by rw [jsTrim_102]; exact holdsPlainEntry_liveStore_102)
  ⟨h.2.2.2.1, h.2.2.2.2.1, h.2.2.2.2.2.1, jsTrim_102 ▸ h.2.2.2.2.2.2.2.1⟩

/-! ## C7: the ETA range -/

theorem staleEtaPage_eq :
    staleEtaPage =
      { samplePassenger Store.empty with
        store := Store.empty.setItem "bus_location_555"
          (stringifyLocation (.fin 28.98) (.fin 77.015))
        timers := { active := [1], next := 2 }
        currentBusNumber := some "555"
        updateInterval := some 1
        busNumberEl := "555"
        busStatusEl := "Live"
        availableSeatsEl := "--"
        nextStopEl := "--"
        etaEl := "--"
        markerLatLng := (.num (.fin 28.98), .num (.fin 77.015))
        mapCenter := (.num (.fin 28.98), .num (.fin 77.015))
        markerOnMap := true } := by
  have hkey : BUS_LOCATION_PREFIX ++ "555" = "bus_location_555" := by decide
  have h1 : (samplePassenger Store.empty).step (.search "555" (1 / 2)) =
      { samplePassenger Store.empty with
        timers := { active := [1], next := 2 }
        currentBusNumber := some "555"
        updateInterval := some 1
        busNumberEl := "555"
        busStatusEl := "Location not available"
        availableSeatsEl := "--"
        nextStopEl := "--"
        etaEl := "--"
        markerOnMap := false } := by
    have hpoll := updateBusLocation_notLive
      (clearPreviousInterval
        { samplePassenger Store.empty with
          currentBusNumber := some (jsTrim "555"), busNumberEl := jsTrim "555" })
      "555" (1 / 2) .null (by rw [jsTrim_555, clearPreviousInterval_fresh _ rfl]) (by decide)
      (by rw [clearPreviousInterval_fresh _ rfl]; rfl)
      (by simp [hasCoordinates, JSVal.truthy])
    rw [Passenger.step, handleSearch_nonempty _ _ _ (by decide), hpoll]
    simp [Outcome.state, clearPreviousInterval_fresh, samplePassenger, setupPassengerPage,
      jsTrim_555]
  rw [staleEtaPage, Passenger.run, List.foldl, h1, List.foldl, List.foldl, List.foldl]
  simp only [Passenger.step]
  rw [if_pos (by simp)]
  rw [updateBusLocation_live _ "555" (1 / 2)
    (.obj [("lat", .num (.fin 28.98)), ("lng", .num (.fin 77.015))]) rfl (by decide)
    (by rw [readLocation, hkey]
        simp [getItem_setItem_same, stringifyLocation, jsonParse, jsonNumber])
    (hasCoordinates_sample _ _ (by norm_num) (by norm_num)) (latLngRejected_sample _ _)
    (panToRejected_sample _ _)]
  simp [mock_555_missing, Outcome.state, JSVal.get, List.lookup, samplePassenger,
    setupPassengerPage]

/-- C7 refuted as stated: after 555 is searched with no record, a record with
both coordinates is stored for it, and the timer fires with the random value
one half, the poll finds a well-formed record (the status is `Live`) and yet
the ETA displayed is `--`, which is not of the form `<n> mins`; identifier 555
has no entry in `MOCK_BUS_DATA`. -/
theorem eta_not_written_without_mock_data :
    staleEtaPage.currentBusNumber = some "555"
    ∧ readLocation staleEtaPage.store "555"
      = some (.obj [("lat", .num (.fin 28.98)), ("lng", .num (.fin 77.015))])
    ∧ staleEtaPage.busStatusEl = "Live"
    ∧ staleEtaPage.etaEl = "--"
    ∧ ¬ ∃ n : ℤ, 1 ≤ n ∧ n ≤ 10 ∧ staleEtaPage.etaEl = toString n ++ " mins" := by
  have hkey : BUS_LOCATION_PREFIX ++ "555" = "bus_location_555" := by decide
  rw [staleEtaPage_eq]
  refine ⟨rfl, ?_, rfl, rfl, ?_⟩
  · rw [readLocation, hkey]
    simp [getItem_setItem_same, stringifyLocation, jsonParse, jsonNumber]
  · rintro ⟨n, _, _, hn⟩
    exact not_minutes_text n hn

/-- C7 as amended: when the poll finds for the current identifier a location
record with valid coordinates (`lat` and `lng` non-zero numbers within the
geographic range, no `alt`), the identifier has an entry in `MOCK_BUS_DATA`,
and `r`, the value of `Math.random()`, is a binary64 number with `0 ≤ r < 1`,
then the poll returns with status `Live` and the ETA displayed is `<n> mins`
with `n = Math.floor(r * 10) + 1` (the product rounded to binary64) and
`1 ≤ n ≤ 10`. -/
theorem eta_range_when_populated (s : Passenger) (busNumber : String) (r : ℚ) (v : JSVal)
    (a b : ℚ)
    (hcur : s.currentBusNumber = some busNumber) (hne : busNumber ≠ "")
    (hread : readLocation s.store busNumber = some v) (hrecord : isValidRecord v a b)
    (hmock : MOCK_BUS_DATA busNumber ≠ .missing)
    (hdouble : toDouble r = r) (h0 : 0 ≤ r) (h1 : r < 1) :
    (updateBusLocation s r).isReturned = true
    ∧ (updateBusLocation s r).state.busStatusEl = "Live"
    ∧ (updateBusLocation s r).state.etaEl = toString (etaMinutes r) ++ " mins"
    ∧ etaMinutes r = ⌊toDouble (r * 10)⌋ + 1
    ∧ 1 ≤ etaMinutes r ∧ etaMinutes r ≤ 10 := by
  have hb10 := etaMinutes_bounds r hdouble h0 h1
  obtain ⟨hlive, hok, hpan⟩ := valid_record_accepted v a b hrecord
  rw [updateBusLocation_live s busNumber r v hcur hne hread hlive hok hpan]
  cases hm : MOCK_BUS_DATA busNumber with
  | missing => exact absurd hm hmock
  | entry bus => exact ⟨rfl, rfl, rfl, rfl, hb10.1, hb10.2⟩
  | inherited => exact ⟨rfl, rfl, rfl, rfl, hb10.1, hb10.2⟩

/-- Witness for C7 as amended: identifier 101 polled over the published record
(28.9863, 77.0195) with the random value one half. -/
theorem eta_range_when_populated_witness :
    (updateBusLocation pollingPage (1 / 2)).state.busStatusEl = "Live"
    ∧ (updateBusLocation pollingPage (1 / 2)).state.etaEl
      = toString (etaMinutes (1 / 2)) ++ " mins"
    ∧ 1 ≤ etaMinutes (1 / 2) ∧ etaMinutes (1 / 2) ≤ 10 :=
  have h := eta_range_when_populated pollingPage "101" (1 / 2) _ 28.9863 77.0195 rfl
    (by decide) liveStore_read isValidRecord_101 (by simp [MOCK_BUS_DATA]) toDouble_half
    (by norm_num) (by norm_num)
  ⟨h.2.1, h.2.2.1, h.2.2.2.2⟩

/-! ## C8: an empty search changes nothing -/

/-- C8: when the submitted input is empty or only whitespace (its `trim` is the
empty string), `handleSearch` returns having only shown the alert: the current
identifier, the interval handle, the timers of the platform, the identifier
label, the status, the seat count, the next stop, the ETA, the map indicator
and the store are all as before; the result does not depend on the random
source, since no poll runs. -/
theorem handleSearch_empty (s : Passenger) (value : String) (r : ℚ)
    (hempty : jsTrim value = "") :
    handleSearch s value r
      = .returned { s with alerts := s.alerts ++ ["Please enter a bus number."] }
    ∧ (handleSearch s value r).state.currentBusNumber = s.currentBusNumber
    ∧ (handleSearch s value r).state.updateInterval = s.updateInterval
    ∧ (handleSearch s value r).state.timers = s.timers
    ∧ (handleSearch s value r).state.busNumberEl = s.busNumberEl
    ∧ (handleSearch s value r).state.shown = s.shown
    ∧ (handleSearch s value r).state.mapCenter = s.mapCenter
    ∧ (handleSearch s value r).state.store = s.store := by
  rw [handleSearch_blank s value r hempty]
  exact ⟨rfl, rfl, rfl, rfl, rfl, rfl, rfl, rfl⟩

/-- Witness for C8: a whitespace-only input submitted while identifier 101 is
being polled. -/
theorem handleSearch_empty_witness :
    (handleSearch searchedPage " \t " 0).state.currentBusNumber = searchedPage.currentBusNumber
    ∧ (handleSearch searchedPage " \t " 0).state.timers = searchedPage.timers
    ∧ (handleSearch searchedPage " \t " 0).state.shown = searchedPage.shown
    ∧ (handleSearch searchedPage " \t " 0).state.store = searchedPage.store :=
  have h := handleSearch_empty searchedPage " \t " 0 (by decide)
  ⟨h.2.1, h.2.2.2.1, h.2.2.2.2.2.1, h.2.2.2.2.2.2.2⟩

/-! ## C9: polling twice -/

theorem pollingPage_poll (r : ℚ) :
    updateBusLocation pollingPage r = .returned
      { pollingPage with
        markerLatLng := (.num (.fin 28.9863), .num (.fin 77.0195))
        mapCenter := (.num (.fin 28.9863), .num (.fin 77.0195))
        busStatusEl := "Live"
        markerOnMap := true
        availableSeatsEl := "25"
        nextStopEl := "Mordern velly ,kharar"
        etaEl := etaText r } := by
  rw [updateBusLocation_live pollingPage "101" r _ rfl (by decide) liveStore_read
    (hasCoordinates_sample _ _ (by norm_num) (by norm_num)) (latLngRejected_sample _ _)
    (panToRejected_sample _ _)]
  simp [MOCK_BUS_DATA, JSVal.get, List.lookup]
  rfl

/-- C9 refuted as stated: over the unchanged store holding the record
(28.9863, 77.0195) for 101, one poll with the random value 0 displays the ETA
`1 mins`, and a second poll with the random value one half displays `6 mins`:
the displayed state after two polls differs from the one after the first. -/
theorem poll_twice_changes_eta :
    (updateBusLocation pollingPage 0).state.etaEl = "1 mins"
    ∧ (updateBusLocation (updateBusLocation pollingPage 0).state (1 / 2)).state.etaEl = "6 mins"
    ∧ (updateBusLocation (updateBusLocation pollingPage 0).state (1 / 2)).state.store
      = (updateBusLocation pollingPage 0).state.store
    ∧ (updateBusLocation (updateBusLocation pollingPage 0).state (1 / 2)).state.shown
      ≠ (updateBusLocation pollingPage 0).state.shown := by
  have h1 : (updateBusLocation pollingPage 0).state.etaEl = "1 mins" := by
    rw [pollingPage_poll, ← etaText_zero]; rfl
  have h2 : (updateBusLocation (updateBusLocation pollingPage 0).state (1 / 2)).state.etaEl
      = "6 mins" := by
    rw [pollingPage_poll 0]
    rw [updateBusLocation_live _ "101" (1 / 2) _ rfl (by decide) liveStore_read
      (hasCoordinates_sample _ _ (by norm_num) (by norm_num)) (latLngRejected_sample _ _)
      (panToRejected_sample _ _), mock_101_entry]
    exact etaText_half
  refine ⟨h1, h2, ?_, ?_⟩
  · rw [(updateBusLocation_frame _ _).1]
  · intro h
    have he : (updateBusLocation (updateBusLocation pollingPage 0).state (1 / 2)).state.etaEl
        = (updateBusLocation pollingPage 0).state.etaEl := by
      have := congrArg (fun t => t.2.2.2.2.2) h
      simpa [Passenger.shown] using this
    rw [h1, h2] at he
    exact absurd he (by decide)

/-- Two polls over the same store leave the state that the second poll alone
would have left: nothing accumulates from one tick to the next. -/
theorem poll_twice_eq (s : Passenger) (r1 r2 : ℚ) :
    (updateBusLocation (updateBusLocation s r1).state r2).state
      = (updateBusLocation s r2).state := by
  cases hcur : s.currentBusNumber with
  | none =>
    rw [updateBusLocation_idle s r1 (Or.inl hcur)]
    rfl
  | some k =>
    by_cases hk : k = ""
    · subst hk
      rw [updateBusLocation_idle s r1 (Or.inr hcur)]
      rfl
    · cases hread : readLocation s.store k with
      | none =>
        rw [updateBusLocation_threw s k r1 hcur hk hread]
        rfl
      | some v =>
        cases hv : hasCoordinates v with
        | false =>
          rw [updateBusLocation_notLive s k r1 v hcur hk hread hv,
            updateBusLocation_notLive s k r2 v hcur hk hread hv]
          simp only [Outcome.state]
          rw [updateBusLocation_notLive
            { s with
              busStatusEl := "Location not available"
              availableSeatsEl := "--"
              nextStopEl := "--"
              etaEl := "--"
              markerOnMap := false } k r2 v hcur hk hread hv]
        | true =>
          cases hrej : latLngRejected v with
          | true =>
            rw [updateBusLocation_rejected s k r1 v hcur hk hread hv hrej]
            rfl
          | false =>
            cases hpan : panToRejected v with
            | true =>
              rw [updateBusLocation_panRejected s k r1 v hcur hk hread hv hrej hpan,
                updateBusLocation_panRejected s k r2 v hcur hk hread hv hrej hpan]
              simp only [Outcome.state]
              rw [updateBusLocation_panRejected
                { s with
                  markerLatLng := (v.get "lat", v.get "lng")
                  mapCenter := (v.get "lat", v.get "lng") } k r2 v hcur hk hread hv hrej hpan]
            | false =>
              rw [updateBusLocation_live s k r1 v hcur hk hread hv hrej hpan,
                updateBusLocation_live s k r2 v hcur hk hread hv hrej hpan]
              cases hm : MOCK_BUS_DATA k with
              | entry bus =>
                simp only [Outcome.state]
                rw [updateBusLocation_live
                  { s with
                    markerLatLng := (v.get "lat", v.get "lng")
                    mapCenter := (v.get "lat", v.get "lng")
                    busStatusEl := "Live"
                    markerOnMap := true
                    availableSeatsEl := toString bus.seats
                    nextStopEl := bus.nextStop
                    etaEl := etaText r1 } k r2 v hcur hk hread hv hrej hpan]
                simp only [hm, Outcome.state]
              | inherited =>
                simp only [Outcome.state]
                rw [updateBusLocation_live
                  { s with
                    markerLatLng := (v.get "lat", v.get "lng")
                    mapCenter := (v.get "lat", v.get "lng")
                    busStatusEl := "Live"
                    markerOnMap := true
                    availableSeatsEl := ""
                    nextStopEl := ""
                    etaEl := etaText r1 } k r2 v hcur hk hread hv hrej hpan]
                simp only [hm, Outcome.state]
              | missing =>
                simp only [Outcome.state]
                rw [updateBusLocation_live
                  { s with
                    markerLatLng := (v.get "lat", v.get "lng")
                    mapCenter := (v.get "lat", v.get "lng")
                    busStatusEl := "Live"
                    markerOnMap := true } k r2 v hcur hk hread hv hrej hpan]
                simp only [hm, Outcome.state]

/-- The random value reaches the state only through the ETA text. -/
theorem poll_differs_in_eta_only (s : Passenger) (r1 r2 : ℚ) :
    (updateBusLocation s r2).state
      = { (updateBusLocation s r1).state with
          etaEl := (updateBusLocation s r2).state.etaEl } := by
  cases hcur : s.currentBusNumber with
  | none =>
    rw [updateBusLocation_idle s r1 (Or.inl hcur), updateBusLocation_idle s r2 (Or.inl hcur)]
  | some k =>
    by_cases hk : k = ""
    · subst hk
      rw [updateBusLocation_idle s r1 (Or.inr hcur), updateBusLocation_idle s r2 (Or.inr hcur)]
    · cases hread : readLocation s.store k with
      | none =>
        rw [updateBusLocation_threw s k r1 hcur hk hread,
          updateBusLocation_threw s k r2 hcur hk hread]
      | some v =>
        cases hv : hasCoordinates v with
        | false =>
          rw [updateBusLocation_notLive s k r1 v hcur hk hread hv,
            updateBusLocation_notLive s k r2 v hcur hk hread hv]
        | true =>
          cases hrej : latLngRejected v with
          | true =>
            rw [updateBusLocation_rejected s k r1 v hcur hk hread hv hrej,
              updateBusLocation_rejected s k r2 v hcur hk hread hv hrej]
          | false =>
            cases hpan : panToRejected v with
            | true =>
              rw [updateBusLocation_panRejected s k r1 v hcur hk hread hv hrej hpan,
                updateBusLocation_panRejected s k r2 v hcur hk hread hv hrej hpan]
            | false =>
              rw [updateBusLocation_live s k r1 v hcur hk hread hv hrej hpan,
                updateBusLocation_live s k r2 v hcur hk hread hv hrej hpan]
              cases hm : MOCK_BUS_DATA k <;> rfl

/-- A poll that reaches line 167 writes the ETA text of its own draw. -/
theorem poll_eta_written (s : Passenger) (k : String) (v : JSVal) (r : ℚ)
    (hcur : s.currentBusNumber = some k) (hk : k ≠ "")
    (hread : readLocation s.store k = some v) (hv : hasCoordinates v = true)
    (hok : latLngRejected v = false) (hpan : panToRejected v = false)
    (hmock : MOCK_BUS_DATA k ≠ .missing) :
    (updateBusLocation s r).state.etaEl = etaText r := by
  rw [updateBusLocation_live s k r v hcur hk hread hv hok hpan]
  cases hm : MOCK_BUS_DATA k with
  | missing => exact absurd hm hmock
  | entry bus => rfl
  | inherited => rfl

/-- Either the ETA text a poll leaves does not depend on the draw, or it is the
text of the draw. -/
theorem poll_eta_cases (s : Passenger) (r1 r2 : ℚ) :
    (updateBusLocation s r2).state.etaEl = (updateBusLocation s r1).state.etaEl
    ∨ ((updateBusLocation s r1).state.etaEl = etaText r1
      ∧ (updateBusLocation s r2).state.etaEl = etaText r2) := by
  cases hcur : s.currentBusNumber with
  | none =>
    rw [updateBusLocation_idle s r1 (Or.inl hcur), updateBusLocation_idle s r2 (Or.inl hcur)]
    exact Or.inl rfl
  | some k =>
    by_cases hk : k = ""
    · subst hk
      rw [updateBusLocation_idle s r1 (Or.inr hcur), updateBusLocation_idle s r2 (Or.inr hcur)]
      exact Or.inl rfl
    · cases hread : readLocation s.store k with
      | none =>
        rw [updateBusLocation_threw s k r1 hcur hk hread,
          updateBusLocation_threw s k r2 hcur hk hread]
        exact Or.inl rfl
      | some v =>
        cases hv : hasCoordinates v with
        | false =>
          rw [updateBusLocation_notLive s k r1 v hcur hk hread hv,
            updateBusLocation_notLive s k r2 v hcur hk hread hv]
          exact Or.inl rfl
        | true =>
          cases hrej : latLngRejected v with
          | true =>
            rw [updateBusLocation_rejected s k r1 v hcur hk hread hv hrej,
              updateBusLocation_rejected s k r2 v hcur hk hread hv hrej]
            exact Or.inl rfl
          | false =>
            cases hpan : panToRejected v with
            | true =>
              rw [updateBusLocation_panRejected s k r1 v hcur hk hread hv hrej hpan,
                updateBusLocation_panRejected s k r2 v hcur hk hread hv hrej hpan]
              exact Or.inl rfl
            | false =>
              rw [updateBusLocation_live s k r1 v hcur hk hread hv hrej hpan,
                updateBusLocation_live s k r2 v hcur hk hread hv hrej hpan]
              cases hm : MOCK_BUS_DATA k with
              | missing => exact Or.inl rfl
              | entry bus => exact Or.inr ⟨rfl, rfl⟩
              | inherited => exact Or.inr ⟨rfl, rfl⟩

/-- A poll that finds no record with both coordinates truthy, or whose
identifier has no entry in `MOCK_BUS_DATA`, leaves an ETA text that does not
depend on the draw. -/
theorem poll_eta_kept (s : Passenger) (r1 r2 : ℚ)
    (hnot : ¬ ∃ k v, s.currentBusNumber = some k ∧ k ≠ "" ∧ readLocation s.store k = some v
      ∧ hasCoordinates v = true ∧ MOCK_BUS_DATA k ≠ .missing) :
    (updateBusLocation s r2).state.etaEl = (updateBusLocation s r1).state.etaEl := by
  cases hcur : s.currentBusNumber with
  | none =>
    rw [updateBusLocation_idle s r1 (Or.inl hcur), updateBusLocation_idle s r2 (Or.inl hcur)]
  | some k =>
    by_cases hk : k = ""
    · subst hk
      rw [updateBusLocation_idle s r1 (Or.inr hcur), updateBusLocation_idle s r2 (Or.inr hcur)]
    · cases hread : readLocation s.store k with
      | none =>
        rw [updateBusLocation_threw s k r1 hcur hk hread,
          updateBusLocation_threw s k r2 hcur hk hread]
      | some v =>
        cases hv : hasCoordinates v with
        | false =>
          rw [updateBusLocation_notLive s k r1 v hcur hk hread hv,
            updateBusLocation_notLive s k r2 v hcur hk hread hv]
        | true =>
          have hmiss : MOCK_BUS_DATA k = .missing := by
            by_contra hm
            exact hnot ⟨k, v, hcur, hk, hread, hv, hm⟩
          cases hrej : latLngRejected v with
          | true =>
            rw [updateBusLocation_rejected s k r1 v hcur hk hread hv hrej,
              updateBusLocation_rejected s k r2 v hcur hk hread hv hrej]
          | false =>
            cases hpan : panToRejected v with
            | true =>
              rw [updateBusLocation_panRejected s k r1 v hcur hk hread hv hrej hpan,
                updateBusLocation_panRejected s k r2 v hcur hk hread hv hrej hpan]
            | false =>
              rw [updateBusLocation_live s k r1 v hcur hk hread hv hrej hpan,
                updateBusLocation_live s k r2 v hcur hk hread hv hrej hpan, hmiss]

/-- C9 as amended: for every page state and any two random values, a second
poll over the unchanged store leaves the status, the position and visibility
of the map indicator, the seat count and the next stop exactly as the first
poll left them, and indeed everything but the ETA.  When the entry of the
current identifier is a location record with valid coordinates (`lat` and
`lng` non-zero numbers within the geographic range, no `alt`) and the
identifier has an entry in `MOCK_BUS_DATA`, the ETA after each poll is the text
of that poll's own draw, so after the second poll it is the text of the second
draw.  When no identifier is current, or its entry is not a
record with both coordinates truthy, or the identifier has no entry in
`MOCK_BUS_DATA`, the ETA after the second poll is the one after the first.  In
every case the ETA after the second poll is the one after the first or the
text of the second draw, and when both draws give the same ETA text the whole
displayed state is the same. -/
theorem poll_twice_same_but_eta (s : Passenger) (r1 r2 : ℚ) :
    (updateBusLocation (updateBusLocation s r1).state r2).state.busStatusEl
      = (updateBusLocation s r1).state.busStatusEl
    ∧ (updateBusLocation (updateBusLocation s r1).state r2).state.markerLatLng
      = (updateBusLocation s r1).state.markerLatLng
    ∧ (updateBusLocation (updateBusLocation s r1).state r2).state.markerOnMap
      = (updateBusLocation s r1).state.markerOnMap
    ∧ (updateBusLocation (updateBusLocation s r1).state r2).state.availableSeatsEl
      = (updateBusLocation s r1).state.availableSeatsEl
    ∧ (updateBusLocation (updateBusLocation s r1).state r2).state.nextStopEl
      = (updateBusLocation s r1).state.nextStopEl
    ∧ (updateBusLocation (updateBusLocation s r1).state r2).state
      = { (updateBusLocation s r1).state with
          etaEl := (updateBusLocation (updateBusLocation s r1).state r2).state.etaEl }
    ∧ (∀ (k : String) (v : JSVal) (a b : ℚ), s.currentBusNumber = some k → k ≠ "" →
        readLocation s.store k = some v → isValidRecord v a b →
        MOCK_BUS_DATA k ≠ .missing →
        (updateBusLocation s r1).state.etaEl = etaText r1
        ∧ (updateBusLocation (updateBusLocation s r1).state r2).state.etaEl = etaText r2)
    ∧ ((¬ ∃ k v, s.currentBusNumber = some k ∧ k ≠ "" ∧ readLocation s.store k = some v
          ∧ hasCoordinates v = true ∧ MOCK_BUS_DATA k ≠ .missing) →
        (updateBusLocation (updateBusLocation s r1).state r2).state.etaEl
          = (updateBusLocation s r1).state.etaEl)
    ∧ ((updateBusLocation (updateBusLocation s r1).state r2).state.etaEl
          = (updateBusLocation s r1).state.etaEl
        ∨ (updateBusLocation (updateBusLocation s r1).state r2).state.etaEl = etaText r2)
    ∧ (etaText r2 = etaText r1 →
        (updateBusLocation (updateBusLocation s r1).state r2).state.shown
          = (updateBusLocation s r1).state.shown) := by
  have htwice := poll_twice_eq s r1 r2
  have hsame : (updateBusLocation (updateBusLocation s r1).state r2).state
      = { (updateBusLocation s r1).state with
          etaEl := (updateBusLocation (updateBusLocation s r1).state r2).state.etaEl } := by
    rw [htwice]
    exact poll_differs_in_eta_only s r1 r2
  have hwritten : ∀ (k : String) (v : JSVal) (a b : ℚ), s.currentBusNumber = some k →
      k ≠ "" → readLocation s.store k = some v → isValidRecord v a b →
      MOCK_BUS_DATA k ≠ .missing →
      (updateBusLocation s r1).state.etaEl = etaText r1
      ∧ (updateBusLocation (updateBusLocation s r1).state r2).state.etaEl = etaText r2 := by
    intro k v a b hcur hk hread hrecord hmock
    obtain ⟨hv, hok, hpan⟩ := valid_record_accepted v a b hrecord
    refine ⟨poll_eta_written s k v r1 hcur hk hread hv hok hpan hmock, ?_⟩
    rw [htwice]
    exact poll_eta_written s k v r2 hcur hk hread hv hok hpan hmock
  have hkept : (¬ ∃ k v, s.currentBusNumber = some k ∧ k ≠ "" ∧ readLocation s.store k = some v
        ∧ hasCoordinates v = true ∧ MOCK_BUS_DATA k ≠ .missing) →
      (updateBusLocation (updateBusLocation s r1).state r2).state.etaEl
        = (updateBusLocation s r1).state.etaEl := by
    intro hnot
    rw [htwice]
    exact poll_eta_kept s r1 r2 hnot
  have heither : (updateBusLocation (updateBusLocation s r1).state r2).state.etaEl
        = (updateBusLocation s r1).state.etaEl
      ∨ (updateBusLocation (updateBusLocation s r1).state r2).state.etaEl = etaText r2 := by
    rw [htwice]
    rcases poll_eta_cases s r1 r2 with h | h
    · exact Or.inl h
    · exact Or.inr h.2
  refine ⟨?_, ?_, ?_, ?_, ?_, hsame, hwritten, hkept, heither, ?_⟩
  · rw [hsame]
  · rw [hsame]
  · rw [hsame]
  · rw [hsame]
  · rw [hsame]
  · intro heq
    have heta : (updateBusLocation (updateBusLocation s r1).state r2).state.etaEl
        = (updateBusLocation s r1).state.etaEl := by
      rw [htwice]
      rcases poll_eta_cases s r1 r2 with h | h
      · exact h
      · rw [h.1, h.2, heq]
    rw [hsame, heta]

/-- Witness for C9 as amended: identifier 101 polled over the published record
with the draws 0 and one half shows the text of 0 and then the text of one
half, and two polls with the same draw display the same state as one. -/
theorem poll_twice_same_but_eta_witness :
    ((updateBusLocation pollingPage 0).state.etaEl = etaText 0
      ∧ (updateBusLocation (updateBusLocation pollingPage 0).state (1 / 2)).state.etaEl
        = etaText (1 / 2))
    ∧ (updateBusLocation (updateBusLocation pollingPage 0).state 0).state.shown
      = (updateBusLocation pollingPage 0).state.shown :=
  ⟨(poll_twice_same_but_eta pollingPage 0 (1 / 2)).2.2.2.2.2.2.1 "101" _ 28.9863 77.0195 rfl
      (by decide) liveStore_read isValidRecord_101 (by simp [MOCK_BUS_DATA]),
    (poll_twice_same_but_eta pollingPage 0 0).2.2.2.2.2.2.2.2.2 rfl⟩

/-! ## C10: metadata left over from the previous identifier -/

theorem afterSearch101_eq :
    afterSearch101 =
      { samplePassenger twoBusStore with
        timers := { active := [1], next := 2 }
        currentBusNumber := some "101"
        updateInterval := some 1
        busNumberEl := "101"
        busStatusEl := "Live"
        availableSeatsEl := "25"
        nextStopEl := "Mordern velly ,kharar"
        etaEl := "1 mins"
        markerLatLng := (.num (.fin 28.9863), .num (.fin 77.0195))
        mapCenter := (.num (.fin 28.9863), .num (.fin 77.0195))
        markerOnMap := true } := by
  simp [afterSearch101, handleSearch, jsTrim_101, clearPreviousInterval, samplePassenger,
    setupPassengerPage, updateBusLocation, twoBusStore_read_101, hasCoordinates_101,
    latLngRejected_sample, panToRejected_sample,
    mock_101_entry, Timers.setInterval, Outcome.state, etaText_zero, JSVal.get, List.lookup]
  rfl

/-- C10, at the failing input: over a store with records for 101 and 555, the
passenger searches 101 and then 555.  After the second search the page is
labelled 555 and shows `Live`, identifier 555 has no entry in `MOCK_BUS_DATA`,
and the seat count and next stop displayed are still those of
`MOCK_BUS_DATA` for 101. -/
theorem stale_metadata_after_second_search :
    afterSearch101.busStatusEl = "Live"
    ∧ afterSearch101.availableSeatsEl = "25"
    ∧ afterSearch101.nextStopEl = "Mordern velly ,kharar"
    ∧ afterSearch555.currentBusNumber = some "555"
    ∧ afterSearch555.busNumberEl = "555"
    ∧ afterSearch555.busStatusEl = "Live"
    ∧ MOCK_BUS_DATA "555" = .missing
    ∧ afterSearch555.availableSeatsEl = "25"
    ∧ afterSearch555.nextStopEl = "Mordern velly ,kharar" := by
  have h2 : afterSearch555 =
      { samplePassenger twoBusStore with
        timers := { active := [2], next := 3 }
        currentBusNumber := some "555"
        updateInterval := some 2
        busNumberEl := "555"
        busStatusEl := "Live"
        availableSeatsEl := "25"
        nextStopEl := "Mordern velly ,kharar"
        etaEl := "1 mins"
        markerLatLng := (.num (.fin 28.98), .num (.fin 77.015))
        mapCenter := (.num (.fin 28.98), .num (.fin 77.015))
        markerOnMap := true } := by
    rw [afterSearch555, afterSearch101_eq]
    simp [handleSearch, jsTrim_555, clearPreviousInterval, samplePassenger,
      setupPassengerPage, updateBusLocation, twoBusStore_read_555, hasCoordinates_555,
      latLngRejected_sample, panToRejected_sample,
      mock_555_missing, Timers.setInterval, Timers.clearInterval, Outcome.state, JSVal.get,
      List.lookup]
  rw [afterSearch101_eq, h2]
  exact ⟨rfl, rfl, rfl, rfl, rfl, rfl, mock_555_missing, rfl, rfl⟩

end BusTracker
